import Mathlib

/-!
Shallow embedding of the MSN switchboard front-end (`front/msn/msnp_sb.py` together
with the framing/close logic of `front/msn/msnp.py`) and proofs about it.

Conventions of the embedding:
* Python `str` values are modelled as `List Char`; Python `bytes` values as `List Nat`
  (one entry per byte).  All string operations used by the source (`split`, `strip`,
  `lower`, `replace`, `startswith`, `index`) are given structural, executable models.
* Python `float` timestamps are modelled as `ℚ`, and Python's `round` (banker's
  rounding, round-half-to-even) is modelled exactly by `pyRound`.
* The controller's observable behaviour (frames written by `send_reply`, connection
  closes, chat events) is captured as a list of `Action` values; mutable controller
  attributes (`dialect`, `auth_sent`, `closed`, the pending auth-limit timer task,
  `bs`, `cs`) form `CtrlState`.
* The auth service (`backend.auth_service`) keeps namespaced token stores; the
  `sb/cal` store threads through the `ANS` handler as an association list, so that
  `pop_token` consumption is visible in the result.
-/

namespace MSN

/-- Character list of a Lean string literal; used to write Python `str` constants. -/
def chars (s : String) : List Char := s.data

/-- Python strings are modelled as lists of characters. -/
abbrev PyStr := List Char

/-- Python bytes objects are modelled as lists of byte values. -/
abbrev Bytes := List Nat

/-- Python `round` on a rational: round half to even (banker's rounding), which is
what `round(float)` does in Python 3. -/
def pyRound (q : ℚ) : ℤ :=
  let n := q.num
  let d := (q.den : ℤ)
  let q0 := n.fdiv d
  let r := n.fmod d
  if 2 * r < d then q0
  else if d < 2 * r then q0 + 1
  else if q0 % 2 = 0 then q0 else q0 + 1

/-- ASCII case folding, modelling `str.lower` on the ASCII range used by the code. -/
def pyLowerChar (c : Char) : Char :=
  if 65 ≤ c.toNat ∧ c.toNat ≤ 90 then Char.ofNat (c.toNat + 32) else c

/-- Model of `str.lower`. -/
def pyLower (s : PyStr) : PyStr := s.map pyLowerChar

/-- Whitespace characters recognised by Python's `str.strip`. -/
def isPySpace (c : Char) : Bool :=
  c = ' ' ∨ c = '\t' ∨ c = '\n' ∨ c = '\r' ∨ c.toNat = 11 ∨ c.toNat = 12

/-- Model of `str.strip()`. -/
def pyStrip (s : PyStr) : PyStr :=
  ((s.dropWhile isPySpace).reverse.dropWhile isPySpace).reverse

/-- Model of `str.lstrip()` (used for header values). -/
def pyLStrip (s : PyStr) : PyStr := s.dropWhile isPySpace

/-- Model of `str.split(sep)` for a one-character separator. -/
def splitChar (sep : Char) : List Char → List (List Char)
  | [] => [[]]
  | c :: rest =>
    match splitChar sep rest with
    | [] => [[c]]
    | cur :: parts => if c = sep then [] :: cur :: parts else (c :: cur) :: parts

/-- Model of `str.split("\r\n")` (leftmost, non-overlapping). -/
def splitCRLF : List Char → List (List Char)
  | [] => [[]]
  | '\r' :: '\n' :: rest => [] :: splitCRLF rest
  | c :: rest =>
    match splitCRLF rest with
    | [] => [[c]]
    | cur :: parts => (c :: cur) :: parts

/-- Model of `str.replace(old, "")` for a one-character `old`: removes every
occurrence. -/
def removeChar (c : Char) (s : PyStr) : PyStr := s.filter (· ≠ c)

/-- Model of `str.startswith(pre)` / testing a prefix of a byte string. -/
def pyStartswith [DecidableEq α] (s pre : List α) : Bool := pre.isPrefixOf s

/-- Index of the first occurrence of `pat` in `l` (`bytes.index` / `str.index`
return this index; they raise `ValueError`, here `none`, when absent). -/
def findSeq [DecidableEq α] (pat : List α) : List α → Option Nat
  | [] => if pat = [] then some 0 else none
  | x :: rest =>
    if pat.isPrefixOf (x :: rest) then some 0
    else (findSeq pat rest).map (· + 1)

/-- UTF-8 encoding of one character, as byte values (`str.encode("utf-8")`). -/
def utf8EncodeCharNat (c : Char) : List Nat :=
  let n := c.toNat
  if n < 0x80 then [n]
  else if n < 0x800 then [0xC0 + n / 64, 0x80 + n % 64]
  else if n < 0x10000 then [0xE0 + n / 4096, 0x80 + (n / 64) % 64, 0x80 + n % 64]
  else [0xF0 + n / 262144, 0x80 + (n / 4096) % 64, 0x80 + (n / 64) % 64, 0x80 + n % 64]

/-- Model of `str.encode("utf-8")`. -/
def utf8Encode (s : PyStr) : Bytes := s.flatMap utf8EncodeCharNat

/-- Strict UTF-8 decoding (`bytes.decode("utf-8")`); `none` models the
`UnicodeDecodeError` raised on invalid input. -/
def utf8DecodeChars : List Nat → Option (List Char)
  | [] => some []
  | b :: rest =>
    if b < 0x80 then
      match utf8DecodeChars rest with
      | some cs => some (Char.ofNat b :: cs)
      | none => none
    else if b < 0xC2 then none
    else if b < 0xE0 then
      match rest with
      | b1 :: rest2 =>
        if 0x80 ≤ b1 ∧ b1 < 0xC0 then
          match utf8DecodeChars rest2 with
          | some cs => some (Char.ofNat ((b - 0xC0) * 64 + (b1 - 0x80)) :: cs)
          | none => none
        else none
      | [] => none
    else if b < 0xF0 then
      match rest with
      | b1 :: b2 :: rest3 =>
        if (0x80 ≤ b1 ∧ b1 < 0xC0) ∧ (0x80 ≤ b2 ∧ b2 < 0xC0) then
          let v := (b - 0xE0) * 4096 + (b1 - 0x80) * 64 + (b2 - 0x80)
          if 0x800 ≤ v ∧ (v < 0xD800 ∨ 0xE000 ≤ v) then
            match utf8DecodeChars rest3 with
            | some cs => some (Char.ofNat v :: cs)
            | none => none
          else none
        else none
      | _ => none
    else if b < 0xF5 then
      match rest with
      | b1 :: b2 :: b3 :: rest4 =>
        if (0x80 ≤ b1 ∧ b1 < 0xC0) ∧ (0x80 ≤ b2 ∧ b2 < 0xC0) ∧ (0x80 ≤ b3 ∧ b3 < 0xC0) then
          let v := (b - 0xF0) * 262144 + (b1 - 0x80) * 4096 + (b2 - 0x80) * 64 + (b3 - 0x80)
          if 0x10000 ≤ v ∧ v ≤ 0x10FFFF then
            match utf8DecodeChars rest4 with
            | some cs => some (Char.ofNat v :: cs)
            | none => none
          else none
        else none
      | _ => none
    else none

/-- Model of `bytes.decode("utf-8")` returning a Python string. -/
def utf8Decode (b : Bytes) : Option PyStr := utf8DecodeChars b

/-! ## Data model

`core/models.py` and `core/backend.py` are not among the sources; the structures
below carry exactly the attributes the switchboard code reads from them, flattened
(`cs.user.email` becomes `cs.email`, `cs.bs.front_data.get('msn_pop_id')` becomes
`cs.popId`, and so on), per the data model section of the specification. -/

/-- Message type tags used by the switchboard code (`core.models.MessageType`). -/
inductive MessageType
  | Chat
  | Typing
  | TypingDone
  | Nudge
deriving DecidableEq

/-- Protocol-neutral chat message (`core.models.MessageData`): sender reference
(flattened to the sender's email), type tag, optional text, and the per-protocol
wire-encoding cache (only the `msnp` slot is relevant here). -/
structure MessageData where
  senderEmail : PyStr
  type : MessageType
  text : Option PyStr
  frontCacheMsnp : Option Bytes
deriving DecidableEq

/-- One device's membership in one room (`ChatSession`), flattened to the fields the
switchboard reads: the owning user's email and status display name, the backend
session's `front_data` entries (`msn_pop_id`, `msn`, `msn_capabilities`,
`msn_capabilitiesex`), the primary-device flag, and an identity tag `sid`
distinguishing distinct Python objects. -/
structure ChatSession where
  sid : Nat
  email : PyStr
  statusName : PyStr
  popId : Option PyStr
  msn : Bool
  caps : Option Nat
  capsEx : Option Nat
  primaryPop : Bool
deriving DecidableEq

/-- The fields of a `BackendSession` read by the switchboard handlers: the user's
email and the `msn_pop_id` front-data entry. -/
structure BSInfo where
  email : PyStr
  popId : Option PyStr
deriving DecidableEq

/-- Exception kinds distinguished by the switchboard handlers (`core.error` plus
`AssertionError`); `other` stands for any further exception class. -/
inductive ExKind
  | contactNotOnline
  | contactAlreadyOnList
  | assertionFailed
  | other (n : Nat)
deriving DecidableEq

instance exceptDecEq {ε α : Type} [DecidableEq ε] [DecidableEq α] :
    DecidableEq (Except ε α) := fun a b =>
  match a, b with
  | .error e, .error f =>
    match decEq e f with
    | isTrue h => isTrue (by rw [h])
    | isFalse h => isFalse (by intro hh; cases hh; exact h rfl)
  | .error _, .ok _ => isFalse (by intro h; cases h)
  | .ok _, .error _ => isFalse (by intro h; cases h)
  | .ok x, .ok y =>
    match decEq x y with
    | isTrue h => isTrue (by rw [h])
    | isFalse h => isFalse (by intro hh; cases hh; exact h rfl)

/-- A chat room as seen from the handlers: the `main` protocol-local id
(`chat.ids.get('main')`), the outcome of `chat.join(...)` for this controller, and
the roster views read back after joining (`get_roster_single`, `get_roster`). -/
structure Chat where
  mainId : Option Nat
  joinOutcome : Except ExKind ChatSession
  rosterSingle : List ChatSession
  roster : List ChatSession
deriving DecidableEq

/-- Payload bound to an `sb/cal` token: `(BackendSession, dialect, Chat)`, where the
chat slot may be `None`. -/
structure CalPayload where
  bs : BSInfo
  dialect : Nat
  chat : Option Chat
deriving DecidableEq

/-- Payload bound to an `sb/xfr` token: `(BackendSession, dialect)`. -/
structure XfrPayload where
  bs : BSInfo
  dialect : Nat
deriving DecidableEq

/-- Error-reply constants sent by name in the source (`Err.AuthFail`,
`Err.InvalidUser2`, `Err.PrincipalNotOnline` from `front/msn/misc.py`). -/
inductive ErrConst
  | authFail
  | invalidUser2
  | principalNotOnline
deriving DecidableEq

/-- Observable behaviour of the controller: each constructor is one `send_reply`
call, a connection close, or a call into the chat model/event layer. -/
inductive Action
  | replyConst (k : ErrConst) (trid : PyStr)
  | replyErrCode (code : PyStr) (trid : PyStr)
  | replyUsrOk (trid arg name : PyStr)
  | replyAnsOk (trid : PyStr)
  | replyCalRinging (trid : PyStr) (roomId : Nat)
  | replyIro (trid : PyStr) (i l : Nat) (emailField statusName : PyStr) (caps : Option PyStr)
  | replyOut
  | replyAck (trid : PyStr)
  | replyNak (trid : PyStr)
  | closeConn (hard : Bool)
  | participantJoinedBroadcast
  | synthJoined
  | fanout (m : MessageData)
  | crash
deriving DecidableEq

/-- Whether an action is a reply frame written to the wire by `send_reply`. -/
def Action.isReplyFrame : Action → Bool
  | .replyConst _ _ => true
  | .replyErrCode _ _ => true
  | .replyUsrOk _ _ _ => true
  | .replyAnsOk _ => true
  | .replyCalRinging _ _ => true
  | .replyIro _ _ _ _ _ _ => true
  | .replyOut => true
  | .replyAck _ => true
  | .replyNak _ => true
  | _ => false

/-- Mutable controller state: `dialect`, `auth_sent`, `closed` (from `MSNPCtrl`),
whether the `_conn_auth_limit_counter` task is still pending (`counter_task`), and
the `bs` / `cs` attributes set on successful handoff. -/
structure CtrlState where
  dialect : Nat
  authSent : Bool
  closed : Bool
  timerActive : Bool
  bs : Option BSInfo
  cs : Option ChatSession

/-- Controller state right after `__init__`. -/
def initialCtrl : CtrlState :=
  { dialect := 0, authSent := false, closed := false, timerActive := false,
    bs := none, cs := none }

/-- Model of `MSNPCtrl.close(hard)`: a no-op when already closed; a soft close first
sends an `OUT` frame, a hard close sends nothing; `_on_close` then cancels the
pending auth-limit timer task. -/
def closeCtrl (st : CtrlState) (hard : Bool) : List Action × CtrlState :=
  if st.closed then ([], st)
  else
    ((if hard then [] else [Action.replyOut]) ++ [Action.closeConn hard],
     { st with closed := true, timerActive := false })

/-! ## Functions from `front/msn/misc.py`

`front/msn/misc.py` itself is not among the sources; the definitions below are
modelled from the specification and from the wire formats visible in
`msnp_sb.py`. -/

/-- Modelled from the spec: `decode_email_pop` from the absent `front/msn/misc.py`.
Per the `USR`/`ANS` comments in `msnp_sb.py` the identity argument is
`email@example.com;{...}`; the string is split at the first `;` into the email and
the optional brace-delimited device id (braces are stripped later by the caller). -/
def decode_email_pop (s : PyStr) : PyStr × Option PyStr :=
  match splitChar ';' s with
  | [] => (s, none)
  | [e] => (e, none)
  | e :: rest => (e, some ((rest.intersperse [';']).flatten))

/-- Modelled from the spec: `encode_email_pop` from the absent `front/msn/misc.py`.
Mirrors the format built inline for `JOI` in `ChatEventHandler`:
`email;{pop_id}` when a device id is present, the bare email otherwise. -/
def encode_email_pop (email : PyStr) (popId : Option PyStr) : PyStr :=
  match popId with
  | some p => email ++ [';', '\x7b'] ++ p ++ ['\x7d']
  | none => email

/-- Modelled from the spec: the maximum-basic-capabilities sentinel
`MAX_CAPABILITIES_BASIC` from the absent `front/msn/misc.py`; its exact numeric
value is not recorded in the sources and no claim depends on it. -/
def MAX_CAPABILITIES_BASIC : Nat := 1073741824

/-- Modelled from the spec: `encode_capabilities_capabilitiesex` from the absent
`front/msn/misc.py` combines the base bitmask and the extended bitmask into one
compound token. -/
def encode_capabilities_capabilitiesex (caps capsEx : Nat) : PyStr :=
  chars (toString caps) ++ [':'] ++ chars (toString capsEx)

/-- Strip `{` and `}` from a device id, modelling
`pop_id.replace('{', '').replace('}', '')`. -/
def stripBraces (s : PyStr) : PyStr := removeChar '\x7d' (removeChar '\x7b' s)

/-! ## Legacy message body codec (`messagedata_from_msnp` / `messagedata_to_msnp`) -/

/-- Fixed placeholder text for unsupported or unparsable message bodies. -/
def unsupportedPlaceholder : PyStr := chars "(Unsupported MSNP Content-Type)"

/-- Parse one `Name: value` header line the way `email.parser` stores it (split at
the first colon, leading whitespace of the value stripped); a line without a colon
is a defect and yields no header. -/
def parseHeaderLine (line : PyStr) : Option (PyStr × PyStr) :=
  match splitChar ':' line with
  | [] => none
  | [_] => none
  | name :: rest => some (name, pyLStrip ((rest.intersperse [':']).flatten))

/-- Parse the header block (lines up to the first blank line) into name/value
pairs, modelling `email.parser.Parser().parsestr` on the simple headers the
switchboard handles. -/
def parseHeaders (txt : PyStr) : List (PyStr × PyStr) :=
  ((splitCRLF txt).takeWhile (· ≠ [])).filterMap parseHeaderLine

/-- Model of `Message.get(name)`: first header whose name matches
case-insensitively. -/
def headerGet (hs : List (PyStr × PyStr)) (name : PyStr) : Option PyStr :=
  (hs.find? (fun p => pyLower p.1 = pyLower name)).map (·.2)

/-- Model of Python `str(x)` applied to `Message.get`'s result: `str(None)` is the
string `"None"` (which is why the `content_type is not None` test in the source is
always true). -/
def pyStrOpt : Option PyStr → PyStr
  | none => chars "None"
  | some s => s

/-- Split an inbound wire body at the first `\r\n\r\n`
(`i = data.index(b'\r\n\r\n') + 4`), decoding the header part as UTF-8; `none`
models the exceptions caught by `messagedata_from_msnp`'s bare `except`. -/
def splitHeadersBody (data : Bytes) : Option (PyStr × Bytes) :=
  match findSeq [13, 10, 13, 10] data with
  | none => none
  | some idx =>
    match utf8Decode (data.take (idx + 4)) with
    | none => none
    | some hdrText => some (hdrText, data.drop (idx + 4))

/-- Extract the datacast `ID` field: `body.index('ID:') + 3`, then the text up to
the next `\r\n`, stripped; `none` models the `ValueError` from `index`. -/
def datacastId (body : PyStr) : Option PyStr :=
  match findSeq (chars "ID:") body with
  | none => none
  | some idx =>
    match findSeq [ '\r', '\n'] (body.drop (idx + 3)) with
    | none => none
    | some k => some (pyStrip ((body.drop (idx + 3)).take k))

/-- Core of `messagedata_from_msnp`: the `(type, text)` computed inside its `try`
block, `none` for any raised-and-caught exception.  The comparison `id is '1'` in
the source behaves as string equality in CPython (the stripped one-character slice
and the literal are the same cached single-character object exactly when they are
equal), and is modelled as equality. -/
def decodeTypeText (data : Bytes) : Option (MessageType × PyStr) :=
  match splitHeadersBody data with
  | none => none
  | some (hdrText, bodyRaw) =>
    let ct := pyStrOpt (headerGet (parseHeaders hdrText) (chars "Content-Type"))
    if pyStartswith ct (chars "text/x-msmsgscontrol") then
      some (.Typing, [])
    else if pyStartswith ct (chars "text/x-msnmsgr-datacast") then
      match utf8Decode bodyRaw with
      | none => none
      | some body =>
        match datacastId body with
        | none => none
        | some idv =>
          if idv = chars "1" then some (.Nudge, [])
          else some (.Chat, unsupportedPlaceholder)
    else if pyStartswith ct (chars "text/plain") then
      match utf8Decode bodyRaw with
      | none => none
      | some body => some (.Chat, body)
    else
      some (.Chat, unsupportedPlaceholder)

/-- Model of `messagedata_from_msnp`: decode an inbound wire body into a
protocol-neutral message; every failure degrades to the fixed placeholder, and the
raw body is stored in the message's `msnp` front cache.  (The `sender_pop_id`
argument is unused in the source as well.) -/
def messagedata_from_msnp (senderEmail : PyStr) (_senderPopId : Option PyStr)
    (data : Bytes) : MessageData :=
  let tx := (decodeTypeText data).getD (.Chat, unsupportedPlaceholder)
  { senderEmail := senderEmail, type := tx.1, text := some tx.2,
    frontCacheMsnp := some data }

/-- Model of `messagedata_to_msnp`: serialise a protocol-neutral message, using the
cached `msnp` encoding when present; `none` models the `ValueError` raised on an
unknown message type. -/
def messagedata_to_msnp (d : MessageData) : Option Bytes :=
  match d.frontCacheMsnp with
  | some b => some b
  | none =>
    match d.type with
    | .Typing =>
      some (utf8Encode (chars "MIME-Version: 1.0\r\nContent-Type: text/x-msmsgscontrol\r\nTypingUser: "
        ++ d.senderEmail ++ chars "\r\n\r\n\r\n"))
    | .Nudge =>
      some (utf8Encode (chars "MIME-Version: 1.0\r\nContent-Type: text/x-msnmsgr-datacast\r\n\r\nID: 1\r\n\r\n"))
    | .Chat =>
      some (utf8Encode (chars "MIME-Version: 1.0\r\nContent-Type: text/plain; charset=UTF-8\r\n\r\n"
        ++ d.text.getD []))
    | .TypingDone => none

/-! ## Dialect ≥ 16 roster enumeration (`_m_ans`, lines 142–172)

Users are compared by email: distinct users have distinct emails (`User` objects
are unique per identity), and `ChatSession` values carry an identity tag `sid`, so
Lean equality on them models Python object identity (`in` on a `set`). -/

/-- The inner-loop condition
`other_cs.user.email == other_cs_primary.user.email and not other_cs.primary_pop`. -/
def npMatch (p c : ChatSession) : Bool :=
  decide (c.email = p.email) && !c.primaryPop

/-- Inner loop of the roster enumeration: collect the not-yet-seen non-primary
sessions of the primary's user, in roster order, threading `seen_cses`, `tmp` and
the count `l`. -/
def innerLoop (p : ChatSession) :
    List ChatSession → List ChatSession → List ChatSession → Nat →
    List ChatSession × List ChatSession × Nat
  | [], seen, tmp, l => (seen, tmp, l)
  | c :: rest, seen, tmp, l =>
    if c ∈ seen then innerLoop p rest seen tmp l
    else if npMatch p c then innerLoop p rest (c :: seen) (tmp ++ [c]) (l + 1)
    else innerLoop p rest seen tmp l

/-- Outer loop of the roster enumeration over `get_roster_single()`: after each
user's non-primary sessions, append the primary itself and count one extra slot
when it has a device id (`l += 2`). -/
def outerLoop (roster : List ChatSession) :
    List ChatSession → List ChatSession → List ChatSession → Nat →
    List ChatSession × Nat
  | [], _seen, tmp, l => (tmp, l)
  | p :: rest, seen, tmp, l =>
    if p ∈ seen then outerLoop roster rest seen tmp l
    else
      match innerLoop p roster seen tmp l with
      | (seen1, tmp1, l1) =>
        outerLoop roster rest (p :: seen1) (tmp1 ++ [p])
          (if p.popId.isSome then l1 + 2 else l1 + 1)

/-- Base capability bitmask of a session:
`(msn_capabilities or 0) if front_data.get('msn') is True else MAX_CAPABILITIES_BASIC`. -/
def capBase (c : ChatSession) : Nat :=
  if c.msn = true then c.caps.getD 0 else MAX_CAPABILITIES_BASIC

/-- Compound capability token used in the dialect ≥ 16 rows (the inner
`if dialect >= 16` re-check of the source is constant-true in this branch). -/
def capString16 (c : ChatSession) : PyStr :=
  encode_capabilities_capabilitiesex (capBase c) (c.capsEx.getD 0)

/-- Single capability bitmask appended for 12 ≤ dialect < 16. -/
def capLegacy (c : ChatSession) : PyStr := chars (toString (capBase c))

/-- Second loop of the dialect ≥ 16 roster enumeration: emit one `IRO` row per
`tmp` entry with the running ordinal `i`, and for a primary with a known device id
a second, device-id-free row with the same capabilities. -/
def emitRows16 (trid : PyStr) (l : Nat) : List ChatSession → Nat → List Action
  | [], _ => []
  | c :: rest, i =>
    let caps := capString16 c
    let r1 := Action.replyIro trid i l (encode_email_pop c.email c.popId)
      c.statusName (some caps)
    if c.primaryPop && c.popId.isSome then
      r1 :: Action.replyIro trid (i + 1) l c.email c.statusName (some caps) ::
        emitRows16 trid l rest (i + 2)
    else
      r1 :: emitRows16 trid l rest (i + 1)

/-- Dialect < 16 roster reply (`_m_ans`, lines 173–186): one row per user other
than the caller (`seen_users` is initialised to the caller and never grown), with
a single capability bitmask appended for dialect ≥ 12. -/
def emitRowsLegacy (trid selfEmail : PyStr) (dialect : Nat)
    (rosterSingle : List ChatSession) : List Action :=
  let one := rosterSingle.filter (fun c => decide (c.email ≠ selfEmail))
  one.enum.map (fun ic =>
    Action.replyIro trid (ic.1 + 1) one.length ic.2.email ic.2.statusName
      (if 12 ≤ dialect then some (capLegacy ic.2) else none))

/-! ## Auth-token stores and the `USR` / `ANS` handlers -/

/-- Association-list lookup, modelling the auth service's token → payload map for
one namespace. -/
def lookupTok {α : Type} (l : List (PyStr × α)) (k : PyStr) : Option α :=
  (l.find? (fun p => decide (p.1 = k))).map (·.2)

/-- Removal of a token, modelling `pop_token`'s consumption. -/
def removeTok {α : Type} (l : List (PyStr × α)) (k : PyStr) : List (PyStr × α) :=
  l.filter (fun p => decide (p.1 ≠ k))

/-- Identity/device-id check shared by `_m_usr` (line 71) and `_m_ans` (line 115):
fails when the email differs, or when dialect ≥ 16, a device id was presented, and
it does not match the session's registered device id case-insensitively after
brace-stripping. -/
def identityFailB (bs : BSInfo) (dialect : Nat) (email : PyStr)
    (popId : Option PyStr) : Bool :=
  decide (bs.email ≠ email) ||
    (decide (16 ≤ dialect) &&
      match popId with
      | some p => decide (pyLower (bs.popId.getD []) ≠ pyLower (stripBraces p))
      | none => false)

/-- Environment consumed by the `ANS` handler: the `sb/cal` token store, the
per-token expiry baselines (`get_token_expiry`), and the numeric error-code table
`Err.GetCodeForException` (abstract: `front/msn/misc.py` is not in the sources). -/
structure AnsEnv where
  calTokens : List (PyStr × CalPayload)
  calExpiry : List (PyStr × ℚ)
  errCode : ExKind → Nat → PyStr

/-- Result of the `ANS` handler: emitted actions, the controller state, and the
`sb/cal` token store after any `pop_token` call. -/
structure AnsOut where
  actions : List Action
  st : CtrlState
  calTokens : List (PyStr × CalPayload)

/-- Model of `MSNPCtrlSB._m_ans`.  Mirrors the source line by line: argument
check; `get_token('sb/cal')`; expiry lookup; `pop_token`; the independent
staleness window `round(now - expiry) >= 60`; identity/device-id check; chat and
session-id check; `chat.join`; timer cancellation; `send_participant_joined`; the
dialect-dependent roster enumeration; `ANS OK`. -/
def m_ans (st0 : CtrlState) (env : AnsEnv) (now : ℚ)
    (trid arg token : Option PyStr) (sessid : Option Nat) (extraArgs : Nat) :
    AnsOut :=
  let st := { st0 with authSent := true }
  match trid, arg, token, sessid with
  | some trid, some arg, some token, some sessid =>
    if 0 < extraArgs then
      let r := closeCtrl st true
      ⟨r.1, r.2, env.calTokens⟩
    else
      let ep := decode_email_pop arg
      match lookupTok env.calTokens token with
      | none =>
        let r := closeCtrl st true
        ⟨Action.replyConst .authFail trid :: r.1, r.2, env.calTokens⟩
      | some data =>
        let expiry := (lookupTok env.calExpiry token).getD 0
        let toks := removeTok env.calTokens token
        if 60 ≤ pyRound (now - expiry) then
          let r := closeCtrl st true
          ⟨r.1, r.2, toks⟩
        else
          if identityFailB data.bs data.dialect ep.1 ep.2 then
            let r := closeCtrl st true
            ⟨Action.replyConst .authFail trid :: r.1, r.2, toks⟩
          else
            match data.chat with
            | none =>
              let r := closeCtrl st true
              ⟨r.1, r.2, toks⟩
            | some chat =>
              if chat.mainId ≠ some sessid then
                let r := closeCtrl st true
                ⟨r.1, r.2, toks⟩
              else
                match chat.joinOutcome with
                | .error ex =>
                  ⟨[Action.replyErrCode (env.errCode ex data.dialect) trid], st, toks⟩
                | .ok cs =>
                  let st1 := { st with dialect := data.dialect, bs := some data.bs, cs := some cs, timerActive := false }
                  let iro :=
                    if 16 ≤ data.dialect then
                      match outerLoop chat.roster chat.rosterSingle [] [] 0 with
                      | (tmp, l) => emitRows16 trid l tmp 1
                    else emitRowsLegacy trid cs.email data.dialect chat.rosterSingle
                  ⟨Action.participantJoinedBroadcast :: iro ++ [Action.replyAnsOk trid],
                   st1, toks⟩
  | _, _, _, _ =>
    let r := closeCtrl st true
    ⟨r.1, r.2, env.calTokens⟩

/-- Environment consumed by the `USR` handler: the `sb/xfr` token store, the
outcome of `backend.chat_create()` followed by `chat.join(...)`, and the abstract
error-code table. -/
structure UsrEnv where
  xfrTokens : List (PyStr × XfrPayload)
  join : Except ExKind ChatSession
  errCode : ExKind → Nat → PyStr

/-- Result of the `USR` handler. -/
structure UsrOut where
  actions : List Action
  st : CtrlState
  xfrTokens : List (PyStr × XfrPayload)

/-- Model of `MSNPCtrlSB._m_usr`.  On a join failure the source's `except` branch
sends the error reply but does not return: execution falls through, assigns
`self.dialect` and `self.bs`, and then crashes on the unbound local `cs` (the
crash is caught and logged by the frame dispatcher), so the timer is not
cancelled. -/
def m_usr (st0 : CtrlState) (env : UsrEnv) (trid arg token : Option PyStr)
    (extraArgs : Nat) : UsrOut :=
  let st := { st0 with authSent := true }
  match trid, arg, token with
  | some trid, some arg, some token =>
    if 0 < extraArgs then
      let r := closeCtrl st true
      ⟨r.1, r.2, env.xfrTokens⟩
    else
      let ep := decode_email_pop arg
      match lookupTok env.xfrTokens token with
      | none =>
        let r := closeCtrl st true
        ⟨Action.replyConst .authFail trid :: r.1, r.2, env.xfrTokens⟩
      | some data =>
        let toks := removeTok env.xfrTokens token
        if identityFailB data.bs data.dialect ep.1 ep.2 then
          let r := closeCtrl st true
          ⟨Action.replyConst .authFail trid :: r.1, r.2, toks⟩
        else
          match env.join with
          | .error ex =>
            ⟨[Action.replyErrCode (env.errCode ex st.dialect) trid, Action.crash],
             { st with dialect := data.dialect, bs := some data.bs }, toks⟩
          | .ok cs =>
            ⟨[Action.replyUsrOk trid arg
                (if cs.statusName = [] then cs.email else cs.statusName)],
             { st with dialect := data.dialect, bs := some data.bs, cs := some cs, timerActive := false }, toks⟩
  | _, _, _ =>
    let r := closeCtrl st true
    ⟨r.1, r.2, env.xfrTokens⟩

/-! ## The `CAL` handler -/

/-- Contact record: the only attribute read is `ctc.status.is_offlineish()`. -/
structure Contact where
  offlineish : Bool
deriving DecidableEq

/-- Loaded user record (`backend._load_user_record`): the only attribute read is
`invitee.status.is_offlineish()`. -/
structure UserRec where
  offlineish : Bool
deriving DecidableEq

/-- Environment consumed by the `CAL` handler: email → uuid resolution, user
record loading, the caller's contact detail (`None` trips the assert inside the
`try` block), the current chat, the outcome of `cs.invite(invitee)` (`some ex`
models a raised exception), and the abstract error-code table. -/
structure CalEnv where
  uuidFromEmail : PyStr → Option PyStr
  loadUser : PyStr → Option UserRec
  detail : Option (List (PyStr × Contact))
  chat : Chat
  inviteOutcome : Option ExKind
  errCode : ExKind → Nat → PyStr

/-- Outcome of the `try` block of `_m_cal`: a silent `return` (missing user
record), a raised exception, or a completed invite. -/
inductive CalTryOut
  | silentReturn
  | raised (ex : ExKind)
  | invited
deriving DecidableEq

/-- The `try` block of `_m_cal` (lines 210–227): assert the caller's detail, load
the invitee, apply the offline-ish presence rules when the invitee is not the
caller, then perform the invite. -/
def m_cal_try (bs : BSInfo) (env : CalEnv) (inviteeEmail uuid : PyStr) :
    CalTryOut :=
  match env.detail with
  | none => .raised .assertionFailed
  | some contacts =>
    match env.loadUser uuid with
    | none => .silentReturn
    | some invitee =>
      let presence : Option ExKind :=
        if inviteeEmail ≠ bs.email then
          match lookupTok contacts uuid with
          | some ctc => if ctc.offlineish then some .contactNotOnline else none
          | none => if invitee.offlineish then some .contactNotOnline else none
        else none
      match presence with
      | some ex => .raised ex
      | none =>
        match env.inviteOutcome with
        | some ex => .raised ex
        | none => .invited

/-- Characters allowed in the local part of the invitee-address regular
expression `[a-zA-Z0-9._\-]`. -/
def isEmailLocalChar (c : Char) : Bool :=
  c.isAlphanum || c = '.' || c = '_' || c = '-'

/-- Characters allowed in a domain label `[a-zA-Z0-9\-]`. -/
def isLabelChar (c : Char) : Bool := c.isAlphanum || c = '-'

/-- Model of `re.match(r'^[a-zA-Z0-9._\-]+@([a-zA-Z0-9\-]+\.)+[a-zA-Z]+$', s)`:
since neither character class contains `@` and the label classes do not contain
`.`, the decomposition at `@` and `.` is unique. -/
def inviteeEmailRe (s : PyStr) : Bool :=
  match splitChar '@' s with
  | [loc, dom] =>
    decide (loc ≠ []) && loc.all isEmailLocalChar &&
    (let parts := splitChar '.' dom
     decide (2 ≤ parts.length) && parts.all (fun p => decide (p ≠ [])) &&
     parts.dropLast.all (·.all isLabelChar) &&
     (parts.getLast?.getD []).all Char.isAlpha)
  | _ => false

/-- Model of `MSNPCtrlSB._m_cal`: address-syntax check, identity resolution, the
`try` block, and on a raised exception either the WLM 2009 self-invite
compatibility shim (`CAL RINGING` plus a synthesized participant-joined event) or
the dialect-specific numeric error reply; `chat.ids['main']` raises (modelled as
`crash`) when the `main` id is absent. -/
def m_cal (st : CtrlState) (env : CalEnv) (trid inviteeEmail : PyStr) :
    List Action × CtrlState :=
  match st.cs, st.bs with
  | some cs, some bs =>
    if !inviteeEmailRe inviteeEmail then
      ([Action.replyConst .invalidUser2 trid], st)
    else
      match env.uuidFromEmail inviteeEmail with
      | none => ([Action.replyConst .principalNotOnline trid], st)
      | some uuid =>
        match m_cal_try bs env inviteeEmail uuid with
        | .silentReturn => ([], st)
        | .raised ex =>
          if ex = .contactAlreadyOnList ∧ inviteeEmail = bs.email ∧
              env.chat.rosterSingle = [cs] ∧ 16 ≤ st.dialect then
            match env.chat.mainId with
            | some rid => ([Action.replyCalRinging trid rid, Action.synthJoined], st)
            | none => ([Action.crash], st)
          else
            ([Action.replyErrCode (env.errCode ex st.dialect) trid], st)
        | .invited =>
          match env.chat.mainId with
          | some rid =>
            (Action.replyCalRinging trid rid ::
              (if 16 ≤ st.dialect ∧ inviteeEmail = bs.email then
                [Action.synthJoined] else []), st)
          | none => ([Action.crash], st)
  | _, _ => ([Action.crash], st)

/-! ## The `MSG` handler -/

/-- Model of `MSNPCtrlSB._m_msg`: payloads over 1664 bytes hard-close the
connection with no reply; otherwise the body is translated and fanned out with
`send_message_to_everyone`, followed by the requested acknowledgement (with
`any_failed` hard-coded to false pending the ACK/NAK TODO). -/
def m_msg (st : CtrlState) (trid ack : PyStr) (data : Bytes) :
    List Action × CtrlState :=
  match st.bs, st.cs with
  | some bs, some cs =>
    if 1664 < data.length then closeCtrl st true
    else
      let m := messagedata_from_msnp cs.email bs.popId data
      let anyFailed := false
      let ackActs :=
        if ack = chars "U" then []
        else if anyFailed then [Action.replyNak trid]
        else if ack ≠ chars "N" then [Action.replyAck trid]
        else []
      (Action.fanout m :: ackActs, st)
  | _, _ => ([Action.crash], st)

/-! ## The anti-flood timer (`on_connect` / `_conn_auth_limit_counter`) -/

/-- Sleep durations performed by `_conn_auth_limit_counter`'s
`while counter < 1: await asyncio.sleep(60)` loop, starting from `counter`. -/
def authLimitSleeps (counter : Nat) : List Nat :=
  if _h : counter < 1 then 60 :: authLimitSleeps (counter + 1) else []
termination_by 1 - counter
decreasing_by omega

/-- Effect of the counter task reaching its post-sleep check: when the task is
still pending, it completes, and hard-closes the connection exactly when no
`USR`/`ANS` frame has set `auth_sent`. -/
def timerFireCtrl (st : CtrlState) : List Action × CtrlState :=
  if st.timerActive then
    let st1 := { st with timerActive := false }
    if st.authSent = false then closeCtrl st1 true else ([], st1)
  else ([], st)

/-- Connection-level events of one switchboard connection. -/
inductive Event
  | connect
  | timerFire
  | recvUsr (env : UsrEnv) (trid arg token : Option PyStr) (extraArgs : Nat)
  | recvAns (env : AnsEnv) (now : ℚ) (trid arg token : Option PyStr)
      (sessid : Option Nat) (extraArgs : Nat)

/-- One step of the connection's state machine: `on_connect` starts the counter
task; the timer fires after its 60-second sleep unless cancelled; `USR`/`ANS`
frames run their handlers. -/
def step (st : CtrlState) : Event → CtrlState × List Action
  | .connect => ({ st with timerActive := true }, [])
  | .timerFire =>
    match timerFireCtrl st with
    | (acts, st1) => (st1, acts)
  | .recvUsr env trid arg token e =>
    match m_usr st env trid arg token e with
    | r => (r.st, r.actions)
  | .recvAns env now trid arg token sessid e =>
    match m_ans st env now trid arg token sessid e with
    | r => (r.st, r.actions)

/-- Run a sequence of events, collecting the emitted actions. -/
def run (st : CtrlState) : List Event → CtrlState × List Action
  | [] => (st, [])
  | e :: rest =>
    match step st e with
    | (st1, acts) =>
      match run st1 rest with
      | (st2, acts2) => (st2, acts ++ acts2)

/-- Whether an action is a successful handoff reply (`USR ... OK` or `ANS ... OK`). -/
def Action.isHandoffOk : Action → Bool
  | .replyUsrOk _ _ _ => true
  | .replyAnsOk _ => true
  | _ => false

/-! ## Codec theorems -/

theorem decodeTypeText_type_cases (data : Bytes) (t : MessageType) (x : PyStr)
    (h : decodeTypeText data = some (t, x)) :
    t = .Chat ∨ t = .Typing ∨ t = .Nudge := by
  unfold decodeTypeText at h
  simp only [] at h
  repeat any_goals split at h
  all_goals simp_all

theorem not_control_of_datacast (ct : PyStr)
    (h : pyStartswith ct (chars "text/x-msnmsgr-datacast") = true) :
    pyStartswith ct (chars "text/x-msmsgscontrol") = false := by
  by_contra hc
  rw [Bool.not_eq_false] at hc
  simp only [pyStartswith] at h hc
  have h1 := List.isPrefixOf_iff_prefix.mp h
  have h2 := List.isPrefixOf_iff_prefix.mp hc
  have h3 := List.prefix_of_prefix_length_le h2 h1 (by decide)
  have h4 : (chars "text/x-msmsgscontrol").isPrefixOf
      (chars "text/x-msnmsgr-datacast") = true :=
    List.isPrefixOf_iff_prefix.mpr h3
  exact absurd h4 (by decide)

/-- Claim C4: encoding a Chat-type message with text "hi" and no cached encoding
yields exactly the bytes of
`MIME-Version: 1.0\r\nContent-Type: text/plain; charset=UTF-8\r\n\r\nhi`, and
decoding that byte string yields a message of type Chat with text "hi". -/
theorem chat_hi_roundtrip (m : MessageData) (s : PyStr) (p : Option PyStr)
    (htype : m.type = .Chat) (htext : m.text = some (chars "hi"))
    (hcache : m.frontCacheMsnp = none) :
    messagedata_to_msnp m =
      some (utf8Encode (chars "MIME-Version: 1.0\r\nContent-Type: text/plain; charset=UTF-8\r\n\r\nhi")) ∧
    (messagedata_from_msnp s p
      (utf8Encode (chars "MIME-Version: 1.0\r\nContent-Type: text/plain; charset=UTF-8\r\n\r\nhi"))).type = .Chat ∧
    (messagedata_from_msnp s p
      (utf8Encode (chars "MIME-Version: 1.0\r\nContent-Type: text/plain; charset=UTF-8\r\n\r\nhi"))).text = some (chars "hi") := by
  obtain ⟨se, ty, tx, fc⟩ := m
  simp only at htype htext hcache
  subst htype; subst htext; subst hcache
  refine ⟨?_, ?_, ?_⟩
  · simp only [messagedata_to_msnp]
    decide
  · simp only [messagedata_from_msnp]
    decide
  · simp only [messagedata_from_msnp]
    decide

theorem chat_hi_roundtrip_witness :
    ((⟨chars "u@e.com", .Chat, some (chars "hi"), none⟩ : MessageData).type = .Chat ∧
     (⟨chars "u@e.com", .Chat, some (chars "hi"), none⟩ : MessageData).text = some (chars "hi") ∧
     (⟨chars "u@e.com", .Chat, some (chars "hi"), none⟩ : MessageData).frontCacheMsnp = none) ∧
    (messagedata_to_msnp ⟨chars "u@e.com", .Chat, some (chars "hi"), none⟩ =
      some (utf8Encode (chars "MIME-Version: 1.0\r\nContent-Type: text/plain; charset=UTF-8\r\n\r\nhi")) ∧
    (messagedata_from_msnp (chars "x@y.com") none
      (utf8Encode (chars "MIME-Version: 1.0\r\nContent-Type: text/plain; charset=UTF-8\r\n\r\nhi"))).type = .Chat ∧
    (messagedata_from_msnp (chars "x@y.com") none
      (utf8Encode (chars "MIME-Version: 1.0\r\nContent-Type: text/plain; charset=UTF-8\r\n\r\nhi"))).text = some (chars "hi")) :=
  ⟨⟨rfl, rfl, rfl⟩, chat_hi_roundtrip _ (chars "x@y.com") none rfl rfl rfl⟩

/-- Claim C5: the inbound decoder is total — every byte string yields a message
(type Chat, Typing or Nudge, with the sender preserved and some text), and both an
unparsable input (any exception inside the `try`) and an unrecognised declared
content type degrade to type Chat with the fixed unsupported-content placeholder. -/
theorem from_msnp_total_fallback (s : PyStr) (p : Option PyStr) (data : Bytes) :
    ((messagedata_from_msnp s p data).senderEmail = s ∧
     (messagedata_from_msnp s p data).text.isSome = true ∧
     ((messagedata_from_msnp s p data).type = .Chat ∨
      (messagedata_from_msnp s p data).type = .Typing ∨
      (messagedata_from_msnp s p data).type = .Nudge)) ∧
    (decodeTypeText data = none →
      (messagedata_from_msnp s p data).type = .Chat ∧
      (messagedata_from_msnp s p data).text = some unsupportedPlaceholder) ∧
    (∀ hdrText bodyRaw,
      splitHeadersBody data = some (hdrText, bodyRaw) →
      pyStartswith (pyStrOpt (headerGet (parseHeaders hdrText) (chars "Content-Type")))
        (chars "text/x-msmsgscontrol") = false →
      pyStartswith (pyStrOpt (headerGet (parseHeaders hdrText) (chars "Content-Type")))
        (chars "text/x-msnmsgr-datacast") = false →
      pyStartswith (pyStrOpt (headerGet (parseHeaders hdrText) (chars "Content-Type")))
        (chars "text/plain") = false →
      (messagedata_from_msnp s p data).type = .Chat ∧
      (messagedata_from_msnp s p data).text = some unsupportedPlaceholder) := by
  refine ⟨⟨rfl, ?_, ?_⟩, ?_, ?_⟩
  · cases h : decodeTypeText data with
    | none => simp [messagedata_from_msnp, h]
    | some tx => simp [messagedata_from_msnp, h]
  · cases h : decodeTypeText data with
    | none => simp [messagedata_from_msnp, h]
    | some tx =>
      obtain ⟨t, x⟩ := tx
      have hc := decodeTypeText_type_cases data t x h
      simp only [messagedata_from_msnp, h, Option.getD_some]
      exact hc
  · intro h
    simp [messagedata_from_msnp, h, unsupportedPlaceholder]
  · intro hdrText bodyRaw hsplit h1 h2 h3
    have hd : decodeTypeText data = some (.Chat, unsupportedPlaceholder) := by
      unfold decodeTypeText
      rw [hsplit]
      simp [h1, h2, h3]
    simp [messagedata_from_msnp, hd]

theorem from_msnp_total_fallback_witness :
    decodeTypeText [0, 1, 2] = none ∧
    ((messagedata_from_msnp (chars "a@b.com") none [0, 1, 2]).type = .Chat ∧
     (messagedata_from_msnp (chars "a@b.com") none [0, 1, 2]).text = some unsupportedPlaceholder) :=
  ⟨by decide, (from_msnp_total_fallback (chars "a@b.com") none [0, 1, 2]).2.1 (by decide)⟩

/-- Claim C6: for a body whose declared content type is the datacast type, the
decoder reads the `ID` field; `ID = 1` yields a Nudge with empty text and any
other id yields a Chat message with the unsupported-content placeholder.  (The
`id is '1'` identity comparison of the source coincides with string equality in
CPython because one-character ASCII strings are interned.) -/
theorem datacast_id_dispatch (s : PyStr) (p : Option PyStr) (data : Bytes)
    (hdrText : PyStr) (bodyRaw : Bytes) (bodyStr idv : PyStr)
    (hsplit : splitHeadersBody data = some (hdrText, bodyRaw))
    (hct : pyStartswith (pyStrOpt (headerGet (parseHeaders hdrText) (chars "Content-Type")))
      (chars "text/x-msnmsgr-datacast") = true)
    (hbody : utf8Decode bodyRaw = some bodyStr)
    (hid : datacastId bodyStr = some idv) :
    (idv = chars "1" →
      (messagedata_from_msnp s p data).type = .Nudge ∧
      (messagedata_from_msnp s p data).text = some []) ∧
    (idv ≠ chars "1" →
      (messagedata_from_msnp s p data).type = .Chat ∧
      (messagedata_from_msnp s p data).text = some unsupportedPlaceholder) := by
  have hctrl := not_control_of_datacast _ hct
  constructor
  · intro h1
    have hd : decodeTypeText data = some (.Nudge, []) := by
      unfold decodeTypeText
      rw [hsplit]
      simp [hctrl, hct, hbody, hid, h1]
    simp [messagedata_from_msnp, hd]
  · intro h1
    have hd : decodeTypeText data = some (.Chat, unsupportedPlaceholder) := by
      unfold decodeTypeText
      rw [hsplit]
      simp [hctrl, hct, hbody, hid, h1]
    simp [messagedata_from_msnp, hd]

theorem datacast_id_dispatch_witness :
    (splitHeadersBody (utf8Encode (chars "MIME-Version: 1.0\r\nContent-Type: text/x-msnmsgr-datacast\r\n\r\nID: 1\r\n\r\n")) =
      some (chars "MIME-Version: 1.0\r\nContent-Type: text/x-msnmsgr-datacast\r\n\r\n",
        utf8Encode (chars "ID: 1\r\n\r\n")) ∧
     datacastId (chars "ID: 1\r\n\r\n") = some (chars "1")) ∧
    ((messagedata_from_msnp (chars "a@b.com") none
      (utf8Encode (chars "MIME-Version: 1.0\r\nContent-Type: text/x-msnmsgr-datacast\r\n\r\nID: 1\r\n\r\n"))).type = .Nudge ∧
     (messagedata_from_msnp (chars "a@b.com") none
      (utf8Encode (chars "MIME-Version: 1.0\r\nContent-Type: text/x-msnmsgr-datacast\r\n\r\nID: 1\r\n\r\n"))).text = some []) :=
  ⟨⟨by decide, by decide⟩,
    (datacast_id_dispatch (chars "a@b.com") none
      (utf8Encode (chars "MIME-Version: 1.0\r\nContent-Type: text/x-msnmsgr-datacast\r\n\r\nID: 1\r\n\r\n"))
      (chars "MIME-Version: 1.0\r\nContent-Type: text/x-msnmsgr-datacast\r\n\r\n")
      (utf8Encode (chars "ID: 1\r\n\r\n"))
      (chars "ID: 1\r\n\r\n") (chars "1")
      (by decide) (by decide) (by decide) (by decide)).1 rfl⟩

/-- Counterexample to claim C7 as stated: the encoded Typing control frame does not
have an empty body — the bytes after the first blank-line separator are a single
CRLF (`[13, 10]`), not the empty byte string. -/
theorem typing_empty_body_cex :
    ((messagedata_to_msnp
        { senderEmail := chars "a@b.com", type := .Typing, text := some [], frontCacheMsnp := none }).bind
      (fun enc => (splitHeadersBody enc).map (fun x => x.2))) = some [13, 10] ∧
    ([13, 10] : Bytes) ≠ [] := by
  constructor
  · decide
  · decide

/-- Claim C7 (amended): encoding a Typing-type message produces the control frame
`MIME-Version: 1.0\r\nContent-Type: text/x-msmsgscontrol\r\nTypingUser: <sender>\r\n\r\n\r\n`
— a `text/x-msmsgscontrol` frame carrying the sender's address whose body is a
single CRLF rather than being empty — and decoding any frame whose declared
content type starts with the control/typing type yields type Typing with empty
text. -/
theorem typing_codec (m : MessageData) (s : PyStr) (p : Option PyStr)
    (data : Bytes) (hdrText : PyStr) (bodyRaw : Bytes)
    (htype : m.type = .Typing) (hcache : m.frontCacheMsnp = none)
    (hsplit : splitHeadersBody data = some (hdrText, bodyRaw))
    (hct : pyStartswith (pyStrOpt (headerGet (parseHeaders hdrText) (chars "Content-Type")))
      (chars "text/x-msmsgscontrol") = true) :
    messagedata_to_msnp m =
      some (utf8Encode (chars "MIME-Version: 1.0\r\nContent-Type: text/x-msmsgscontrol\r\nTypingUser: "
        ++ m.senderEmail ++ chars "\r\n\r\n\r\n")) ∧
    (messagedata_from_msnp s p data).type = .Typing ∧
    (messagedata_from_msnp s p data).text = some [] ∧
    (splitHeadersBody (utf8Encode (chars "MIME-Version: 1.0\r\nContent-Type: text/x-msmsgscontrol\r\nTypingUser: a@b.com\r\n\r\n\r\n"))).map
      (fun x => x.2) = some [13, 10] := by
  have hd : decodeTypeText data = some (.Typing, []) := by
    unfold decodeTypeText
    rw [hsplit]
    simp [hct]
  obtain ⟨se, ty, tx, fc⟩ := m
  simp only at htype hcache
  subst htype; subst hcache
  refine ⟨?_, ?_, ?_, ?_⟩
  · simp [messagedata_to_msnp]
  · simp [messagedata_from_msnp, hd]
  · simp [messagedata_from_msnp, hd]
  · decide

theorem typing_codec_witness :
    ((⟨chars "a@b.com", .Typing, some [], none⟩ : MessageData).type = .Typing ∧
     splitHeadersBody (utf8Encode (chars "MIME-Version: 1.0\r\nContent-Type: text/x-msmsgscontrol\r\nTypingUser: a@b.com\r\n\r\n\r\n")) =
       some (chars "MIME-Version: 1.0\r\nContent-Type: text/x-msmsgscontrol\r\nTypingUser: a@b.com\r\n\r\n", [13, 10])) ∧
    (messagedata_to_msnp ⟨chars "a@b.com", .Typing, some [], none⟩ =
      some (utf8Encode (chars "MIME-Version: 1.0\r\nContent-Type: text/x-msmsgscontrol\r\nTypingUser: "
        ++ chars "a@b.com" ++ chars "\r\n\r\n\r\n")) ∧
     (messagedata_from_msnp (chars "x@y.com") none
       (utf8Encode (chars "MIME-Version: 1.0\r\nContent-Type: text/x-msmsgscontrol\r\nTypingUser: a@b.com\r\n\r\n\r\n"))).type = .Typing ∧
     (messagedata_from_msnp (chars "x@y.com") none
       (utf8Encode (chars "MIME-Version: 1.0\r\nContent-Type: text/x-msmsgscontrol\r\nTypingUser: a@b.com\r\n\r\n\r\n"))).text = some [] ∧
     (splitHeadersBody (utf8Encode (chars "MIME-Version: 1.0\r\nContent-Type: text/x-msmsgscontrol\r\nTypingUser: a@b.com\r\n\r\n\r\n"))).map
       (fun x => x.2) = some [13, 10]) :=
  ⟨⟨rfl, by decide⟩,
    typing_codec ⟨chars "a@b.com", .Typing, some [], none⟩ (chars "x@y.com") none
      (utf8Encode (chars "MIME-Version: 1.0\r\nContent-Type: text/x-msmsgscontrol\r\nTypingUser: a@b.com\r\n\r\n\r\n"))
      (chars "MIME-Version: 1.0\r\nContent-Type: text/x-msmsgscontrol\r\nTypingUser: a@b.com\r\n\r\n")
      [13, 10]
      rfl rfl (by decide) (by decide)⟩

/-! ## Token/handler theorems -/

theorem lookupTok_removeTok {α : Type} (l : List (PyStr × α)) (k : PyStr) :
    lookupTok (removeTok l k) k = none := by
  induction l with
  | nil => rfl
  | cons a rest ih =>
    by_cases h : a.1 = k
    · simpa [removeTok, List.filter_cons, h] using ih
    · simp only [removeTok, List.filter_cons, decide_not, h, decide_False,
        Bool.not_false, if_true] at ih ⊢
      simp only [lookupTok, List.find?_cons, h, decide_False] at ih ⊢
      exact ih

theorem m_ans_calTokens_after_lookup (st0 : CtrlState) (env : AnsEnv) (now : ℚ)
    (trid arg token : PyStr) (sessid : Nat) (d : CalPayload)
    (hlook : lookupTok env.calTokens token = some d) :
    (m_ans st0 env now (some trid) (some arg) (some token) (some sessid) 0).calTokens =
      removeTok env.calTokens token := by
  unfold m_ans
  simp only [hlook]
  repeat any_goals split
  all_goals first
  | rfl
  | omega

theorem m_ans_bad_token (st1 : CtrlState) (env : AnsEnv) (now : ℚ)
    (trid arg token : PyStr) (sessid : Nat)
    (hclosed : st1.closed = false)
    (hnone : lookupTok env.calTokens token = none) :
    (m_ans st1 env now (some trid) (some arg) (some token) (some sessid) 0).actions =
      [Action.replyConst .authFail trid, Action.closeConn true] := by
  unfold m_ans
  simp [hnone, closeCtrl, hclosed]

/-- Claim C1: an `ANS` request whose `sb/cal` token resolves to a payload is
nevertheless rejected with a hard close and no reply frame whenever
`round(now - expiry-baseline) ≥ 60` — the independent staleness window — even
though the token's own TTL has not elapsed (the lookup succeeded). -/
theorem ans_stale_token_hard_close (st0 : CtrlState) (env : AnsEnv) (now : ℚ)
    (trid arg token : PyStr) (sessid : Nat) (d : CalPayload)
    (hclosed : st0.closed = false)
    (hlook : lookupTok env.calTokens token = some d)
    (hstale : 60 ≤ pyRound (now - (lookupTok env.calExpiry token).getD 0)) :
    (m_ans st0 env now (some trid) (some arg) (some token) (some sessid) 0).actions =
      [Action.closeConn true] ∧
    (m_ans st0 env now (some trid) (some arg) (some token) (some sessid) 0).st.closed = true := by
  unfold m_ans
  simp [hlook, hstale, closeCtrl, hclosed]

theorem ans_stale_token_hard_close_witness :
    (lookupTok [(chars "t", (⟨⟨chars "a@b.com", none⟩, 16, none⟩ : CalPayload))] (chars "t") =
        some ⟨⟨chars "a@b.com", none⟩, 16, none⟩ ∧
      (60 : ℤ) ≤ pyRound ((61 : ℚ) - (lookupTok [(chars "t", (0 : ℚ))] (chars "t")).getD 0)) ∧
    ((m_ans initialCtrl
        { calTokens := [(chars "t", ⟨⟨chars "a@b.com", none⟩, 16, none⟩)],
          calExpiry := [(chars "t", 0)],
          errCode := fun _ _ => chars "911" }
        61 (some (chars "1")) (some (chars "a@b.com")) (some (chars "t")) (some 5) 0).actions =
      [Action.closeConn true] ∧
     (m_ans initialCtrl
        { calTokens := [(chars "t", ⟨⟨chars "a@b.com", none⟩, 16, none⟩)],
          calExpiry := [(chars "t", 0)],
          errCode := fun _ _ => chars "911" }
        61 (some (chars "1")) (some (chars "a@b.com")) (some (chars "t")) (some 5) 0).st.closed = true) := by
  have hlook : lookupTok [(chars "t", (⟨⟨chars "a@b.com", none⟩, 16, none⟩ : CalPayload))] (chars "t") =
      some ⟨⟨chars "a@b.com", none⟩, 16, none⟩ := by
    simp [lookupTok]
  have hexp : lookupTok [(chars "t", (0 : ℚ))] (chars "t") = some 0 := by
    simp [lookupTok]
  have hstale : (60 : ℤ) ≤ pyRound ((61 : ℚ) - (lookupTok [(chars "t", (0 : ℚ))] (chars "t")).getD 0) := by
    rw [hexp]
    norm_num [pyRound]
  exact ⟨⟨hlook, hstale⟩,
    ans_stale_token_hard_close initialCtrl _ 61 (chars "1") (chars "a@b.com") (chars "t") 5 _
      rfl hlook hstale⟩

/-- Claim C10: in the `ANS` path the token is popped before the staleness,
identity, device-id and session-id checks; hence any attempt rejected by one of
those later checks has still consumed the token, and a second presentation of the
same token fails authentication with a hard close. -/
theorem ans_token_consumed_on_late_reject (st0 : CtrlState) (env : AnsEnv) (now : ℚ)
    (trid arg token : PyStr) (sessid : Nat) (d : CalPayload)
    (hlook : lookupTok env.calTokens token = some d)
    (_hrej : 60 ≤ pyRound (now - (lookupTok env.calExpiry token).getD 0) ∨
        identityFailB d.bs d.dialect (decode_email_pop arg).1 (decode_email_pop arg).2 = true ∨
        d.chat = none ∨
        (∃ chat, d.chat = some chat ∧ chat.mainId ≠ some sessid)) :
    lookupTok (m_ans st0 env now (some trid) (some arg) (some token) (some sessid) 0).calTokens
      token = none ∧
    (∀ st1 now2 trid2 arg2 sessid2, st1.closed = false →
      (m_ans st1
        { env with calTokens :=
            (m_ans st0 env now (some trid) (some arg) (some token) (some sessid) 0).calTokens }
        now2 (some trid2) (some arg2) (some token) (some sessid2) 0).actions =
      [Action.replyConst .authFail trid2, Action.closeConn true]) := by
  have hrem := m_ans_calTokens_after_lookup st0 env now trid arg token sessid d hlook
  have hnone : lookupTok
      (m_ans st0 env now (some trid) (some arg) (some token) (some sessid) 0).calTokens token = none := by
    rw [hrem]; exact lookupTok_removeTok env.calTokens token
  refine ⟨hnone, ?_⟩
  intro st1 now2 trid2 arg2 sessid2 hclosed
  exact m_ans_bad_token st1 _ now2 trid2 arg2 token sessid2 hclosed hnone

theorem ans_token_consumed_on_late_reject_witness :
    (lookupTok [(chars "t", (⟨⟨chars "a@b.com", none⟩, 16, some ⟨some 5, .error (.other 0), [], []⟩⟩ : CalPayload))] (chars "t") =
        some ⟨⟨chars "a@b.com", none⟩, 16, some ⟨some 5, .error (.other 0), [], []⟩⟩ ∧
      (∃ chat, (some (⟨some 5, .error (.other 0), [], []⟩ : Chat) = some chat ∧ chat.mainId ≠ some 9))) ∧
    (lookupTok (m_ans initialCtrl
        { calTokens := [(chars "t", ⟨⟨chars "a@b.com", none⟩, 16, some ⟨some 5, .error (.other 0), [], []⟩⟩)],
          calExpiry := [(chars "t", 100)],
          errCode := fun _ _ => chars "911" }
        100 (some (chars "1")) (some (chars "a@b.com")) (some (chars "t")) (some 9) 0).calTokens
      (chars "t") = none ∧
     (m_ans { initialCtrl with closed := false }
        { calTokens := (m_ans initialCtrl
            { calTokens := [(chars "t", ⟨⟨chars "a@b.com", none⟩, 16, some ⟨some 5, .error (.other 0), [], []⟩⟩)],
              calExpiry := [(chars "t", 100)],
              errCode := fun _ _ => chars "911" }
            100 (some (chars "1")) (some (chars "a@b.com")) (some (chars "t")) (some 9) 0).calTokens,
          calExpiry := [(chars "t", 100)],
          errCode := fun _ _ => chars "911" }
        100 (some (chars "2")) (some (chars "a@b.com")) (some (chars "t")) (some 9) 0).actions =
      [Action.replyConst .authFail (chars "2"), Action.closeConn true]) := by
  have hlook : lookupTok [(chars "t", (⟨⟨chars "a@b.com", none⟩, 16, some ⟨some 5, .error (.other 0), [], []⟩⟩ : CalPayload))] (chars "t") =
      some ⟨⟨chars "a@b.com", none⟩, 16, some ⟨some 5, .error (.other 0), [], []⟩⟩ := by
    simp [lookupTok]
  have hrej : (∃ chat, some (⟨some 5, .error (.other 0), [], []⟩ : Chat) = some chat ∧
      chat.mainId ≠ some 9) :=
    ⟨⟨some 5, .error (.other 0), [], []⟩, rfl, by decide⟩
  have h := ans_token_consumed_on_late_reject initialCtrl
    { calTokens := [(chars "t", ⟨⟨chars "a@b.com", none⟩, 16, some ⟨some 5, .error (.other 0), [], []⟩⟩)],
      calExpiry := [(chars "t", 100)],
      errCode := fun _ _ => chars "911" }
    100 (chars "1") (chars "a@b.com") (chars "t") 9 _
    hlook (Or.inr (Or.inr (Or.inr hrej)))
  exact ⟨⟨hlook, hrej⟩, h.1, h.2 { initialCtrl with closed := false } 100 (chars "2") (chars "a@b.com") 9 rfl⟩

/-- Claim C3: an `MSG` frame whose payload exceeds 1664 bytes causes an immediate
hard close with no reply frame and no fan-out; a payload of at most 1664 bytes is
translated by `messagedata_from_msnp` and fanned out to the roster, leaving the
connection state untouched. -/
theorem msg_payload_ceiling (st : CtrlState) (trid ack : PyStr) (data : Bytes)
    (bs : BSInfo) (cs : ChatSession)
    (hbs : st.bs = some bs) (hcs : st.cs = some cs) (hopen : st.closed = false) :
    (1664 < data.length →
      (m_msg st trid ack data).1 = [Action.closeConn true] ∧
      (m_msg st trid ack data).2.closed = true) ∧
    (data.length ≤ 1664 →
      (m_msg st trid ack data).1.head? =
        some (Action.fanout (messagedata_from_msnp cs.email bs.popId data)) ∧
      (m_msg st trid ack data).2 = st) := by
  unfold m_msg
  simp only [hbs, hcs]
  constructor
  · intro h
    rw [if_pos h]
    simp [closeCtrl, hopen]
  · intro h
    rw [if_neg (by omega)]
    simp

theorem msg_payload_ceiling_witness :
    ((⟨0, false, false, false, some ⟨chars "a@b.com", none⟩, some ⟨0, chars "a@b.com", chars "A", none, false, none, none, true⟩⟩ : CtrlState).bs =
        some ⟨chars "a@b.com", none⟩ ∧
      1664 < (List.replicate 1665 (0 : Nat)).length) ∧
    ((m_msg ⟨0, false, false, false, some ⟨chars "a@b.com", none⟩, some ⟨0, chars "a@b.com", chars "A", none, false, none, none, true⟩⟩
        (chars "1") (chars "A") (List.replicate 1665 0)).1 = [Action.closeConn true] ∧
     (m_msg ⟨0, false, false, false, some ⟨chars "a@b.com", none⟩, some ⟨0, chars "a@b.com", chars "A", none, false, none, none, true⟩⟩
        (chars "1") (chars "A") (List.replicate 1665 0)).2.closed = true) := by
  refine ⟨⟨rfl, by rw [List.length_replicate]; omega⟩, ?_⟩
  exact (msg_payload_ceiling _ (chars "1") (chars "A") (List.replicate 1665 0)
    ⟨chars "a@b.com", none⟩ ⟨0, chars "a@b.com", chars "A", none, false, none, none, true⟩
    rfl rfl rfl).1 (by rw [List.length_replicate]; omega)

/-- Claim C8: in the `CAL` handler, when the invite raises an exception, the
WLM 2009 compatibility shim (exception is already-on-list, the invitee is the
caller, the single-device roster is exactly the caller's chat session, dialect
≥ 16) replies `CAL RINGING` with the room id and synthesizes a participant-joined
event instead of an error reply; any other raised exception produces the
dialect-specific numeric error code, and in both cases the connection state is
unchanged (stays open). -/
theorem cal_self_invite_shim (st : CtrlState) (env : CalEnv) (trid inviteeEmail : PyStr)
    (cs : ChatSession) (bs : BSInfo) (uuid : PyStr) (ex : ExKind)
    (hcs : st.cs = some cs) (hbs : st.bs = some bs)
    (hre : inviteeEmailRe inviteeEmail = true)
    (huuid : env.uuidFromEmail inviteeEmail = some uuid)
    (htry : m_cal_try bs env inviteeEmail uuid = .raised ex) :
    ((ex = .contactAlreadyOnList ∧ inviteeEmail = bs.email ∧
        env.chat.rosterSingle = [cs] ∧ 16 ≤ st.dialect) →
      ∀ rid, env.chat.mainId = some rid →
        (m_cal st env trid inviteeEmail).1 =
          [Action.replyCalRinging trid rid, Action.synthJoined] ∧
        (m_cal st env trid inviteeEmail).2 = st) ∧
    (¬(ex = .contactAlreadyOnList ∧ inviteeEmail = bs.email ∧
        env.chat.rosterSingle = [cs] ∧ 16 ≤ st.dialect) →
      (m_cal st env trid inviteeEmail).1 =
        [Action.replyErrCode (env.errCode ex st.dialect) trid] ∧
      (m_cal st env trid inviteeEmail).2 = st) := by
  unfold m_cal
  rw [hcs, hbs]
  simp only [hre, Bool.not_true, Bool.false_eq_true, if_false, huuid, htry]
  constructor
  · intro hc rid hrid
    rw [if_pos hc, hrid]
    exact ⟨rfl, rfl⟩
  · intro hc
    rw [if_neg hc]
    exact ⟨rfl, rfl⟩

theorem cal_self_invite_shim_witness :
    (m_cal_try ⟨chars "a@b.com", none⟩
        { uuidFromEmail := fun _ => some (chars "u1"),
          loadUser := fun _ => some ⟨false⟩,
          detail := some [],
          chat := ⟨some 7, .error (.other 0), [⟨0, chars "a@b.com", chars "A", none, false, none, none, true⟩], []⟩,
          inviteOutcome := some .contactAlreadyOnList,
          errCode := fun _ _ => chars "911" }
        (chars "a@b.com") (chars "u1") = .raised .contactAlreadyOnList ∧
      inviteeEmailRe (chars "a@b.com") = true) ∧
    ((m_cal (⟨16, false, false, false, some ⟨chars "a@b.com", none⟩, some ⟨0, chars "a@b.com", chars "A", none, false, none, none, true⟩⟩ : CtrlState)
        { uuidFromEmail := fun _ => some (chars "u1"),
          loadUser := fun _ => some ⟨false⟩,
          detail := some [],
          chat := ⟨some 7, .error (.other 0), [⟨0, chars "a@b.com", chars "A", none, false, none, none, true⟩], []⟩,
          inviteOutcome := some .contactAlreadyOnList,
          errCode := fun _ _ => chars "911" }
        (chars "9") (chars "a@b.com")).1 =
      [Action.replyCalRinging (chars "9") 7, Action.synthJoined] ∧
     (m_cal (⟨16, false, false, false, some ⟨chars "a@b.com", none⟩, some ⟨0, chars "a@b.com", chars "A", none, false, none, none, true⟩⟩ : CtrlState)
        { uuidFromEmail := fun _ => some (chars "u1"),
          loadUser := fun _ => some ⟨false⟩,
          detail := some [],
          chat := ⟨some 7, .error (.other 0), [⟨0, chars "a@b.com", chars "A", none, false, none, none, true⟩], []⟩,
          inviteOutcome := some .contactAlreadyOnList,
          errCode := fun _ _ => chars "911" }
        (chars "9") (chars "a@b.com")).2 =
      (⟨16, false, false, false, some ⟨chars "a@b.com", none⟩, some ⟨0, chars "a@b.com", chars "A", none, false, none, none, true⟩⟩ : CtrlState)) := by
  refine ⟨⟨by decide, by decide⟩, ?_⟩
  exact (cal_self_invite_shim _ _ (chars "9") (chars "a@b.com")
      ⟨0, chars "a@b.com", chars "A", none, false, none, none, true⟩
      ⟨chars "a@b.com", none⟩ (chars "u1") .contactAlreadyOnList
      rfl rfl (by decide) rfl (by decide)).1
    (by exact ⟨rfl, rfl, rfl, by decide⟩) 7 rfl

/-! ## Anti-flood timer theorems -/

theorem ansOk_not_mem_closeCtrl (st : CtrlState) (h : Bool) (t : PyStr) :
    Action.replyAnsOk t ∉ (closeCtrl st h).1 := by
  unfold closeCtrl
  split
  · simp
  · split <;> simp

/-- Counterexample to claim C9 as stated: a `USR` attempt that is received in time
but fails at the join step leaves the connection open past the timer expiry, even
though neither handoff path completed (no `USR OK`/`ANS OK` was ever sent) — the
timer only checks whether an auth frame was received (`auth_sent`), not whether a
handoff completed. -/
theorem conn_auth_timer_cex :
    ((run initialCtrl
        [Event.connect,
         Event.recvUsr
           { xfrTokens := [(chars "t", ⟨⟨chars "a@b.com", none⟩, 16⟩)],
             join := .error (.other 0),
             errCode := fun _ _ => chars "911" }
           (some (chars "1")) (some (chars "a@b.com")) (some (chars "t")) 0,
         Event.timerFire]).1.closed = false) ∧
    ((run initialCtrl
        [Event.connect,
         Event.recvUsr
           { xfrTokens := [(chars "t", ⟨⟨chars "a@b.com", none⟩, 16⟩)],
             join := .error (.other 0),
             errCode := fun _ _ => chars "911" }
           (some (chars "1")) (some (chars "a@b.com")) (some (chars "t")) 0,
         Event.timerFire]).2.filter Action.isHandoffOk = []) := by
  constructor
  · decide
  · decide

/-- Claim C9 (amended): on raw connection accept a one-shot 60-second timer is
started; when it fires, the connection is force-closed exactly when no `USR`/`ANS`
frame has been received yet (not merely when no handoff completed); and the timer
is cancelled the instant either handoff path succeeds. -/
theorem conn_auth_timer (st : CtrlState) :
    authLimitSleeps 0 = [60] ∧
    (step st .connect).1.timerActive = true ∧
    (st.timerActive = true → st.authSent = false → st.closed = false →
      step st .timerFire =
        ({ st with timerActive := false, closed := true }, [Action.closeConn true])) ∧
    (∀ env now trid arg token sessid d chat cs,
      lookupTok env.calTokens token = some d →
      ¬ (60 ≤ pyRound (now - (lookupTok env.calExpiry token).getD 0)) →
      identityFailB d.bs d.dialect (decode_email_pop arg).1 (decode_email_pop arg).2 = false →
      d.chat = some chat →
      chat.mainId = some sessid →
      chat.joinOutcome = .ok cs →
      (m_ans st env now (some trid) (some arg) (some token) (some sessid) 0).st.timerActive = false ∧
      (m_ans st env now (some trid) (some arg) (some token) (some sessid) 0).st.closed = st.closed ∧
      Action.replyAnsOk trid ∈
        (m_ans st env now (some trid) (some arg) (some token) (some sessid) 0).actions) ∧
    (∀ env trid arg token d cs,
      lookupTok env.xfrTokens token = some d →
      identityFailB d.bs d.dialect (decode_email_pop arg).1 (decode_email_pop arg).2 = false →
      env.join = .ok cs →
      (m_usr st env (some trid) (some arg) (some token) 0).st.timerActive = false ∧
      (m_usr st env (some trid) (some arg) (some token) 0).st.closed = st.closed ∧
      (∃ nm, Action.replyUsrOk trid arg nm ∈
        (m_usr st env (some trid) (some arg) (some token) 0).actions)) := by
  refine ⟨?_, rfl, ?_, ?_, ?_⟩
  · simp [authLimitSleeps]
  · intro h1 h2 h3
    simp only [step, timerFireCtrl, h1, if_true, h2, closeCtrl, h3]
    simp
  · intro env now trid arg token sessid d chat cs hlook hstale hid hchat hmain hjoin
    unfold m_ans
    simp only [hlook, hchat, hjoin, hid]
    rw [if_neg (by omega), if_neg hstale]
    simp only [Bool.false_eq_true, if_false, hmain]
    simp [List.mem_append]
  · intro env trid arg token d cs hlook hid hjoin
    unfold m_usr
    simp only [hlook, hjoin, hid]
    rw [if_neg (by omega)]
    simp only [Bool.false_eq_true, if_false]
    refine ⟨?_, ?_, ⟨if cs.statusName = [] then cs.email else cs.statusName, ?_⟩⟩
    · trivial
    · trivial
    · simp

theorem conn_auth_timer_witness :
    ((⟨0, false, false, true, none, none⟩ : CtrlState).timerActive = true ∧
      (⟨0, false, false, true, none, none⟩ : CtrlState).authSent = false ∧
      lookupTok [(chars "t", (⟨⟨chars "a@b.com", none⟩, 16⟩ : XfrPayload))] (chars "t") =
        some ⟨⟨chars "a@b.com", none⟩, 16⟩) ∧
    (step (⟨0, false, false, true, none, none⟩ : CtrlState) .timerFire =
      (⟨0, false, true, false, none, none⟩, [Action.closeConn true]) ∧
     (m_usr (⟨0, false, false, true, none, none⟩ : CtrlState)
        { xfrTokens := [(chars "t", ⟨⟨chars "a@b.com", none⟩, 16⟩)],
          join := .ok ⟨0, chars "a@b.com", chars "A", none, false, none, none, true⟩,
          errCode := fun _ _ => chars "911" }
        (some (chars "1")) (some (chars "a@b.com")) (some (chars "t")) 0).st.timerActive = false) := by
  have h := conn_auth_timer (⟨0, false, false, true, none, none⟩ : CtrlState)
  refine ⟨⟨rfl, rfl, by simp [lookupTok]⟩, ?_, ?_⟩
  · exact h.2.2.1 rfl rfl rfl
  · exact (h.2.2.2.2
      { xfrTokens := [(chars "t", ⟨⟨chars "a@b.com", none⟩, 16⟩)],
        join := .ok ⟨0, chars "a@b.com", chars "A", none, false, none, none, true⟩,
        errCode := fun _ _ => chars "911" }
      (chars "1") (chars "a@b.com") (chars "t")
      ⟨⟨chars "a@b.com", none⟩, 16⟩
      ⟨0, chars "a@b.com", chars "A", none, false, none, none, true⟩
      (by simp [lookupTok]) (by decide) rfl).1

/-! ## Dialect ≥ 16 roster enumeration theorems -/

/-- Ordinal field of an `IRO` row. -/
def iroOrdinal : Action → Option Nat
  | .replyIro _ i _ _ _ _ => some i
  | _ => none

/-- Total-count field of an `IRO` row. -/
def iroTotal : Action → Option Nat
  | .replyIro _ _ l _ _ _ => some l
  | _ => none

/-- Block decomposition realised by the first enumeration loop: for each primary,
its non-primary same-user sessions in roster order followed by the primary
itself. -/
def npBlocks (rs roster : List ChatSession) : List ChatSession :=
  rs.flatMap (fun p => roster.filter (npMatch p) ++ [p])

theorem npMatch_eq_true (p c : ChatSession) :
    npMatch p c = true ↔ c.email = p.email ∧ c.primaryPop = false := by
  simp [npMatch]

theorem innerLoop_eq (p : ChatSession) (roster : List ChatSession) :
    ∀ (seen tmp : List ChatSession) (l : Nat),
    roster.Nodup →
    (∀ c ∈ roster, npMatch p c = true → c ∉ seen) →
    innerLoop p roster seen tmp l =
      ((roster.filter (npMatch p)).reverse ++ seen,
       tmp ++ roster.filter (npMatch p),
       l + (roster.filter (npMatch p)).length) := by
  induction roster with
  | nil =>
    intro seen tmp l _ _
    simp [innerLoop]
  | cons c rest ih =>
    intro seen tmp l hnd hdisj
    obtain ⟨hcr, hndr⟩ := List.nodup_cons.mp hnd
    by_cases hnp : npMatch p c = true
    · have hmem : c ∉ seen := hdisj c (List.mem_cons_self c rest) hnp
      have hdisj2 : ∀ x ∈ rest, npMatch p x = true → x ∉ c :: seen := by
        intro x hx hmx
        simp only [List.mem_cons, not_or]
        exact ⟨fun he => hcr (he ▸ hx), hdisj x (List.mem_cons_of_mem _ hx) hmx⟩
      simp only [innerLoop]
      rw [if_neg hmem, if_pos hnp,
        ih (c :: seen) (tmp ++ [c]) (l + 1) hndr hdisj2]
      simp only [List.filter_cons, hnp, if_true, List.reverse_cons,
        List.append_assoc, List.singleton_append, List.length_cons, Prod.mk.injEq]
      exact ⟨trivial, trivial, by omega⟩
    · have hdisj2 : ∀ x ∈ rest, npMatch p x = true → x ∉ seen := fun x hx hmx =>
        hdisj x (List.mem_cons_of_mem _ hx) hmx
      have hfil : (c :: rest).filter (npMatch p) = rest.filter (npMatch p) := by
        simp only [List.filter_cons]
        rw [if_neg hnp]
      simp only [innerLoop]
      by_cases hmem : c ∈ seen
      · rw [if_pos hmem, ih seen tmp l hndr hdisj2, hfil]
      · rw [if_neg hmem, if_neg hnp, ih seen tmp l hndr hdisj2, hfil]

theorem outerLoop_eq (roster : List ChatSession) (rs : List ChatSession) :
    ∀ (seen tmp : List ChatSession) (l : Nat),
    roster.Nodup →
    (∀ p ∈ rs, p.primaryPop = true) →
    (rs.map (·.email)).Nodup →
    (∀ p ∈ rs, p ∉ seen) →
    (∀ c ∈ roster, c.primaryPop = false → (∃ p ∈ rs, c.email = p.email) → c ∉ seen) →
    outerLoop roster rs seen tmp l =
      (tmp ++ npBlocks rs roster,
       l + (npBlocks rs roster).length +
         (rs.filter (fun p => p.popId.isSome)).length) := by
  induction rs with
  | nil =>
    intro seen tmp l _ _ _ _ _
    simp [outerLoop, npBlocks]
  | cons p rest ih =>
    intro seen tmp l hnd hprim hem hseenP hseenN
    have hpmem : p ∉ seen := hseenP p (List.mem_cons_self p rest)
    have hpe : p.email ∉ rest.map (·.email) := (List.nodup_cons.mp hem).1
    have hemr : (rest.map (·.email)).Nodup := (List.nodup_cons.mp hem).2
    have hdisj : ∀ c ∈ roster, npMatch p c = true → c ∉ seen := by
      intro c hc hm
      obtain ⟨he, hpr⟩ := (npMatch_eq_true p c).mp hm
      exact hseenN c hc hpr ⟨p, List.mem_cons_self p rest, he⟩
    simp only [outerLoop]
    rw [if_neg hpmem, innerLoop_eq p roster seen tmp l hnd hdisj]
    have hprimr : ∀ q ∈ rest, q.primaryPop = true := fun q hq =>
      hprim q (List.mem_cons_of_mem _ hq)
    have hseenP2 : ∀ q ∈ rest,
        q ∉ p :: ((roster.filter (npMatch p)).reverse ++ seen) := by
      intro q hq
      simp only [List.mem_cons, List.mem_append, List.mem_reverse, not_or]
      refine ⟨?_, ?_, hseenP q (List.mem_cons_of_mem _ hq)⟩
      · intro he
        exact hpe (he ▸ List.mem_map_of_mem (·.email) hq)
      · intro hf
        have := (npMatch_eq_true p q).mp (List.mem_filter.mp hf).2
        have hq2 := hprimr q hq
        rw [hq2] at this
        exact Bool.true_eq_false.mp this.2
    have hseenN2 : ∀ c ∈ roster, c.primaryPop = false →
        (∃ q ∈ rest, c.email = q.email) →
        c ∉ p :: ((roster.filter (npMatch p)).reverse ++ seen) := by
      intro c hc hcpr ⟨q, hq, hce⟩
      simp only [List.mem_cons, List.mem_append, List.mem_reverse, not_or]
      refine ⟨?_, ?_, hseenN c hc hcpr ⟨q, List.mem_cons_of_mem _ hq, hce⟩⟩
      · intro he
        have := hprim p (List.mem_cons_self p rest)
        rw [he] at hcpr
        rw [hcpr] at this
        exact Bool.false_eq_true.mp this
      · intro hf
        have he2 := ((npMatch_eq_true p c).mp (List.mem_filter.mp hf).2).1
        exact hpe (by
          rw [← he2, hce] at *
          exact hce ▸ he2 ▸ List.mem_map_of_mem (·.email) hq)
    rw [ih (p :: ((roster.filter (npMatch p)).reverse ++ seen))
      ((tmp ++ roster.filter (npMatch p)) ++ [p])
      (if p.popId.isSome then l + (roster.filter (npMatch p)).length + 2
        else l + (roster.filter (npMatch p)).length + 1)
      hnd hprimr hemr hseenP2 hseenN2]
    simp only [npBlocks, List.flatMap_cons, List.append_assoc,
      List.singleton_append, List.length_append, List.length_cons,
      List.filter_cons, Prod.mk.injEq]
    constructor
    · simp [List.append_assoc]
    · by_cases hpop : p.popId.isSome
      · simp only [hpop, if_true]
        simp [List.length_append]
        omega
      · simp only [hpop, if_false]
        simp [List.length_append]
        omega

theorem emitRows16_length (trid : PyStr) (l : Nat) (tmp : List ChatSession) :
    ∀ i, (emitRows16 trid l tmp i).length =
      tmp.length + (tmp.filter (fun c => c.primaryPop && c.popId.isSome)).length := by
  induction tmp with
  | nil => intro i; simp [emitRows16]
  | cons c rest ih =>
    intro i
    simp only [emitRows16]
    by_cases h : (c.primaryPop && c.popId.isSome) = true
    · rw [if_pos h]
      simp only [List.length_cons, List.filter_cons, h, if_true, ih]
      omega
    · have hb : (c.primaryPop && c.popId.isSome) = false := by
        rwa [Bool.not_eq_true] at h
      rw [if_neg h]
      simp [List.filter_cons, hb, ih]
      omega

theorem emitRows16_ordinals (trid : PyStr) (l : Nat) (tmp : List ChatSession) :
    ∀ i, (emitRows16 trid l tmp i).map iroOrdinal =
      (List.range' i (emitRows16 trid l tmp i).length).map some := by
  induction tmp with
  | nil => intro i; simp [emitRows16]
  | cons c rest ih =>
    intro i
    simp only [emitRows16]
    by_cases h : (c.primaryPop && c.popId.isSome) = true
    · rw [if_pos h]
      simp only [List.map_cons, List.length_cons, List.range', List.map]
      rw [ih (i + 2)]
      simp [iroOrdinal, Nat.add_assoc]
    · rw [if_neg h]
      simp only [List.map_cons, List.length_cons, List.range', List.map]
      rw [ih (i + 1)]
      simp [iroOrdinal]

theorem emitRows16_totals (trid : PyStr) (l : Nat) (tmp : List ChatSession) :
    ∀ i, (emitRows16 trid l tmp i).map iroTotal =
      List.replicate (emitRows16 trid l tmp i).length (some l) := by
  induction tmp with
  | nil => intro i; simp [emitRows16]
  | cons c rest ih =>
    intro i
    simp only [emitRows16]
    by_cases h : (c.primaryPop && c.popId.isSome) = true
    · rw [if_pos h]
      simp only [List.map_cons, List.length_cons, List.replicate, iroTotal]
      rw [ih (i + 2)]
    · rw [if_neg h]
      simp only [List.map_cons, List.length_cons, List.replicate, iroTotal]
      rw [ih (i + 1)]

theorem emitRows16_pair (trid : PyStr) (l : Nat) (tmp : List ChatSession)
    (c : ChatSession) (pid : PyStr) (hc : c ∈ tmp)
    (hp : c.primaryPop = true) (hpid : c.popId = some pid) :
    ∀ i, ∃ k,
      (emitRows16 trid l tmp i).get? k =
        some (.replyIro trid (i + k) l (encode_email_pop c.email (some pid))
          c.statusName (some (capString16 c))) ∧
      (emitRows16 trid l tmp i).get? (k + 1) =
        some (.replyIro trid (i + k + 1) l c.email c.statusName
          (some (capString16 c))) := by
  induction tmp with
  | nil => cases hc
  | cons a rest ih =>
    intro i
    rcases List.mem_cons.mp hc with he | hmem
    · subst he
      have hcond : (c.primaryPop && c.popId.isSome) = true := by
        rw [hp, hpid]; rfl
      refine ⟨0, ?_, ?_⟩
      · simp [emitRows16, hcond, hpid, hp]
      · simp [emitRows16, hcond, hpid, hp]
    · simp only [emitRows16]
      by_cases hcond : (a.primaryPop && a.popId.isSome) = true
      · obtain ⟨k, h1, h2⟩ := ih hmem (i + 2)
        refine ⟨k + 2, ?_, ?_⟩
        · rw [if_pos hcond]
          simp only [List.get?_cons_succ]
          rw [h1]
          have : i + 2 + k = i + (k + 2) := by omega
          rw [this]
        · rw [if_pos hcond]
          simp only [List.get?_cons_succ]
          rw [h2]
          have : i + 2 + k + 1 = i + (k + 2) + 1 := by omega
          rw [this]
      · obtain ⟨k, h1, h2⟩ := ih hmem (i + 1)
        refine ⟨k + 1, ?_, ?_⟩
        · rw [if_neg hcond]
          simp only [List.get?_cons_succ]
          rw [h1]
          have : i + 1 + k = i + (k + 1) := by omega
          rw [this]
        · rw [if_neg hcond]
          simp only [List.get?_cons_succ]
          rw [h2]
          have : i + 1 + k + 1 = i + (k + 1) + 1 := by omega
          rw [this]

theorem npBlocks_filter_primpop (rs roster : List ChatSession)
    (hprim : ∀ p ∈ rs, p.primaryPop = true) :
    (npBlocks rs roster).filter (fun c => c.primaryPop && c.popId.isSome) =
      rs.filter (fun p => p.popId.isSome) := by
  induction rs with
  | nil => rfl
  | cons p rest ih =>
    have hprimr : ∀ q ∈ rest, q.primaryPop = true := fun q hq =>
      hprim q (List.mem_cons_of_mem _ hq)
    have h1 : (roster.filter (npMatch p)).filter
        (fun c => c.primaryPop && c.popId.isSome) = [] := by
      rw [List.filter_eq_nil_iff]
      intro c hcf
      have hm := (npMatch_eq_true p c).mp (List.mem_filter.mp hcf).2
      simp [hm.2]
    have hp := hprim p (List.mem_cons_self p rest)
    simp only [npBlocks, List.flatMap_cons, List.filter_append, h1,
      List.nil_append, List.filter_cons]
    rw [hp]
    simp only [Bool.true_and]
    by_cases hpop : p.popId.isSome
    · rw [if_pos hpop, if_pos hpop]
      simp only [List.filter_nil, List.cons_append, List.nil_append]
      rw [← npBlocks, ih hprimr]
    · rw [if_neg hpop, if_neg hpop]
      simp only [List.filter_nil, List.nil_append]
      rw [← npBlocks, ih hprimr]

theorem email_mem_of_mem_npBlocks (rs roster : List ChatSession) (c : ChatSession)
    (hc : c ∈ npBlocks rs roster) : ∃ q ∈ rs, c.email = q.email := by
  simp only [npBlocks, List.mem_flatMap] at hc
  obtain ⟨q, hq, hcq⟩ := hc
  rcases List.mem_append.mp hcq with h | h
  · exact ⟨q, hq, ((npMatch_eq_true q c).mp (List.mem_filter.mp h).2).1⟩
  · rw [List.mem_singleton.mp h]
    exact ⟨q, hq, rfl⟩

theorem mem_npBlocks_of_primary (rs roster : List ChatSession) (p : ChatSession)
    (hp : p ∈ rs) : p ∈ npBlocks rs roster := by
  simp only [npBlocks, List.mem_flatMap]
  exact ⟨p, hp, List.mem_append.mpr (Or.inr (List.mem_singleton.mpr rfl))⟩

theorem mem_npBlocks_of_matching (rs roster : List ChatSession)
    (c q : ChatSession) (hq : q ∈ rs) (hc : c ∈ roster)
    (hm : npMatch q c = true) : c ∈ npBlocks rs roster := by
  simp only [npBlocks, List.mem_flatMap]
  exact ⟨q, hq, List.mem_append.mpr (Or.inl (List.mem_filter.mpr ⟨hc, hm⟩))⟩

theorem npBlocks_filter_email_getLast (rs roster : List ChatSession)
    (p : ChatSession) (hp : p ∈ rs)
    (hprim : ∀ q ∈ rs, q.primaryPop = true)
    (hem : (rs.map (·.email)).Nodup) :
    ((npBlocks rs roster).filter (fun c => decide (c.email = p.email))).getLast? =
      some p := by
  induction rs with
  | nil => cases hp
  | cons q rest ih =>
    have hqe : q.email ∉ rest.map (·.email) := (List.nodup_cons.mp hem).1
    have hemr : (rest.map (·.email)).Nodup := (List.nodup_cons.mp hem).2
    have hprimr : ∀ x ∈ rest, x.primaryPop = true := fun x hx =>
      hprim x (List.mem_cons_of_mem _ hx)
    rcases List.mem_cons.mp hp with he | hp2
    · subst he
      have hblock : (roster.filter (npMatch p) ++ [p]).filter
          (fun c => decide (c.email = p.email)) =
          roster.filter (npMatch p) ++ [p] := by
        rw [List.filter_eq_self]
        intro c hcm
        rcases List.mem_append.mp hcm with h | h
        · exact decide_eq_true ((npMatch_eq_true p c).mp (List.mem_filter.mp h).2).1
        · rw [List.mem_singleton.mp h]
          exact decide_eq_true rfl
      have hrest : (npBlocks rest roster).filter
          (fun c => decide (c.email = p.email)) = [] := by
        rw [List.filter_eq_nil_iff]
        intro c hcm
        obtain ⟨x, hx, hxe⟩ := email_mem_of_mem_npBlocks rest roster c hcm
        simp only [decide_eq_true_eq]
        intro hce
        exact hqe (by
          rw [← hce, hxe] at *
          exact hxe ▸ List.mem_map_of_mem (·.email) hx)
      simp only [npBlocks, List.flatMap_cons]
      rw [← npBlocks, List.filter_append, hblock, hrest, List.append_nil]
      exact List.getLast?_concat _
    · have hpe2 : p.email ∈ rest.map (·.email) := List.mem_map_of_mem (·.email) hp2
      have hqp : q.email ≠ p.email := fun he => hqe (he ▸ hpe2)
      have hblock : (roster.filter (npMatch q) ++ [q]).filter
          (fun c => decide (c.email = p.email)) = [] := by
        rw [List.filter_eq_nil_iff]
        intro c hcm
        simp only [decide_eq_true_eq]
        rcases List.mem_append.mp hcm with h | h
        · have hce := ((npMatch_eq_true q c).mp (List.mem_filter.mp h).2).1
          rw [hce]
          exact hqp
        · rw [List.mem_singleton.mp h]
          exact hqp
      simp only [npBlocks, List.flatMap_cons]
      rw [← npBlocks, List.filter_append, hblock, List.nil_append]
      exact ih hp2 hprimr hemr

/-- Reported total count of the dialect ≥ 16 roster reply: one slot per listed
(user, device) entry plus one extra slot per primary entry with a device id. -/
def rosterTotal16 (chat : Chat) : Nat :=
  (npBlocks chat.rosterSingle chat.roster).length +
    (chat.rosterSingle.filter (fun p => p.popId.isSome)).length

/-- The `IRO` rows of the dialect ≥ 16 roster reply, described through the block
decomposition. -/
def rosterRows16 (trid : PyStr) (chat : Chat) : List Action :=
  emitRows16 trid (rosterTotal16 chat) (npBlocks chat.rosterSingle chat.roster) 1

/-- Claim C2: in the dialect ≥ 16 `ANS` roster reply, every (user, device) entry
gets its own `IRO` row numbered by a running ordinal starting at 1; the reported
total count equals the number of rows and includes one extra slot per primary
entry with a device id; within each user's group the primary device's entry comes
last; and a primary with a known device id gets a second, device-id-free row with
the same capabilities immediately after its own.  The roster well-formedness
hypotheses (primaries in `get_roster_single`, distinct users have distinct
emails, no duplicate sessions) reflect the roster contract of the session/chat
model. -/
theorem ans_roster16 (st0 : CtrlState) (env : AnsEnv) (now : ℚ)
    (trid arg token : PyStr) (sessid : Nat) (d : CalPayload) (chat : Chat)
    (cs : ChatSession)
    (hlook : lookupTok env.calTokens token = some d)
    (hstale : ¬ (60 ≤ pyRound (now - (lookupTok env.calExpiry token).getD 0)))
    (hid : identityFailB d.bs d.dialect (decode_email_pop arg).1
      (decode_email_pop arg).2 = false)
    (hchat : d.chat = some chat)
    (hmain : chat.mainId = some sessid)
    (hjoin : chat.joinOutcome = .ok cs)
    (h16 : 16 ≤ d.dialect)
    (hnd : chat.roster.Nodup)
    (hprim : ∀ p ∈ chat.rosterSingle, p.primaryPop = true)
    (hem : (chat.rosterSingle.map (·.email)).Nodup) :
    (m_ans st0 env now (some trid) (some arg) (some token) (some sessid) 0).actions =
      Action.participantJoinedBroadcast :: rosterRows16 trid chat ++
        [Action.replyAnsOk trid] ∧
    (rosterRows16 trid chat).length = rosterTotal16 chat ∧
    rosterTotal16 chat = (npBlocks chat.rosterSingle chat.roster).length +
      (chat.rosterSingle.filter (fun p => p.popId.isSome)).length ∧
    (rosterRows16 trid chat).map iroOrdinal =
      (List.range' 1 (rosterRows16 trid chat).length).map some ∧
    (rosterRows16 trid chat).map iroTotal =
      List.replicate (rosterRows16 trid chat).length (some (rosterTotal16 chat)) ∧
    (∀ p ∈ chat.rosterSingle, p ∈ npBlocks chat.rosterSingle chat.roster ∧
      ((npBlocks chat.rosterSingle chat.roster).filter
        (fun c => decide (c.email = p.email))).getLast? = some p) ∧
    (∀ c ∈ chat.roster, ∀ q ∈ chat.rosterSingle, npMatch q c = true →
      c ∈ npBlocks chat.rosterSingle chat.roster) ∧
    (∀ c ∈ npBlocks chat.rosterSingle chat.roster, ∀ pid,
      c.primaryPop = true → c.popId = some pid →
      ∃ k, (rosterRows16 trid chat).get? k =
          some (.replyIro trid (1 + k) (rosterTotal16 chat)
            (encode_email_pop c.email (some pid)) c.statusName
            (some (capString16 c))) ∧
        (rosterRows16 trid chat).get? (k + 1) =
          some (.replyIro trid (1 + k + 1) (rosterTotal16 chat) c.email
            c.statusName (some (capString16 c)))) := by
  have houter : outerLoop chat.roster chat.rosterSingle [] [] 0 =
      (npBlocks chat.rosterSingle chat.roster, rosterTotal16 chat) := by
    rw [outerLoop_eq chat.roster chat.rosterSingle [] [] 0 hnd hprim hem
      (by intro p hp; simp) (by intro c hc h1 h2; simp)]
    simp [rosterTotal16]
  refine ⟨?_, ?_, rfl, ?_, ?_, ?_, ?_, ?_⟩
  · unfold m_ans
    simp only [hlook, hchat, hjoin, hid]
    rw [if_neg (by omega), if_neg hstale]
    simp only [Bool.false_eq_true, if_false, hmain]
    rw [if_pos h16, houter]
    simp [rosterRows16]
  · rw [rosterRows16, emitRows16_length, npBlocks_filter_primpop _ _ hprim,
      rosterTotal16]
  · exact emitRows16_ordinals trid (rosterTotal16 chat)
      (npBlocks chat.rosterSingle chat.roster) 1
  · exact emitRows16_totals trid (rosterTotal16 chat)
      (npBlocks chat.rosterSingle chat.roster) 1
  · intro p hp
    exact ⟨mem_npBlocks_of_primary _ _ p hp,
      npBlocks_filter_email_getLast _ _ p hp hprim hem⟩
  · intro c hc q hq hm
    exact mem_npBlocks_of_matching _ _ c q hq hc hm
  · intro c hc pid hp hpid
    exact emitRows16_pair trid (rosterTotal16 chat)
      (npBlocks chat.rosterSingle chat.roster) c pid hc hp hpid 1

/-- Witness scenario for the roster enumeration: device session A of user
`u@x.com` (primary, device id `AAAA`). -/
def c2A : ChatSession :=
  ⟨1, chars "u@x.com", chars "U", some (chars "AAAA"), true, some 4, some 2, true⟩

/-- Witness scenario: device session B of the same user (device id `BBBB`,
non-primary). -/
def c2B : ChatSession :=
  ⟨2, chars "u@x.com", chars "U", some (chars "BBBB"), true, some 8, none, false⟩

/-- Witness scenario: the joining third party `c@y.com`. -/
def c2C : ChatSession :=
  ⟨3, chars "c@y.com", chars "C", none, false, none, none, true⟩

/-- Witness scenario: the room after the join, with both devices of `u@x.com` and
the caller on the roster. -/
def c2Chat : Chat := ⟨some 5, .ok c2C, [c2A, c2C], [c2A, c2B, c2C]⟩

/-- Witness scenario: the `sb/cal` token payload. -/
def c2Payload : CalPayload := ⟨⟨chars "c@y.com", none⟩, 16, some c2Chat⟩

/-- Witness scenario: the auth-service environment. -/
def c2Env : AnsEnv :=
  { calTokens := [(chars "t", c2Payload)],
    calExpiry := [(chars "t", 100)],
    errCode := fun _ _ => chars "911" }

theorem ans_roster16_witness :
    (lookupTok c2Env.calTokens (chars "t") = some c2Payload ∧
      ¬ (60 ≤ pyRound ((100 : ℚ) - (lookupTok c2Env.calExpiry (chars "t")).getD 0)) ∧
      c2Chat.roster.Nodup ∧
      (∀ p ∈ c2Chat.rosterSingle, p.primaryPop = true) ∧
      (c2Chat.rosterSingle.map (·.email)).Nodup) ∧
    ((m_ans initialCtrl c2Env 100 (some (chars "1")) (some (chars "c@y.com"))
        (some (chars "t")) (some 5) 0).actions =
      Action.participantJoinedBroadcast :: rosterRows16 (chars "1") c2Chat ++
        [Action.replyAnsOk (chars "1")] ∧
     (rosterRows16 (chars "1") c2Chat).length = rosterTotal16 c2Chat ∧
     rosterTotal16 c2Chat = (npBlocks c2Chat.rosterSingle c2Chat.roster).length +
       (c2Chat.rosterSingle.filter (fun p => p.popId.isSome)).length ∧
     (rosterRows16 (chars "1") c2Chat).map iroOrdinal =
       (List.range' 1 (rosterRows16 (chars "1") c2Chat).length).map some ∧
     (rosterRows16 (chars "1") c2Chat).map iroTotal =
       List.replicate (rosterRows16 (chars "1") c2Chat).length
         (some (rosterTotal16 c2Chat)) ∧
     (∀ p ∈ c2Chat.rosterSingle, p ∈ npBlocks c2Chat.rosterSingle c2Chat.roster ∧
       ((npBlocks c2Chat.rosterSingle c2Chat.roster).filter
         (fun c => decide (c.email = p.email))).getLast? = some p) ∧
     (∀ c ∈ c2Chat.roster, ∀ q ∈ c2Chat.rosterSingle, npMatch q c = true →
       c ∈ npBlocks c2Chat.rosterSingle c2Chat.roster) ∧
     (∀ c ∈ npBlocks c2Chat.rosterSingle c2Chat.roster, ∀ pid,
       c.primaryPop = true → c.popId = some pid →
       ∃ k, (rosterRows16 (chars "1") c2Chat).get? k =
           some (.replyIro (chars "1") (1 + k) (rosterTotal16 c2Chat)
             (encode_email_pop c.email (some pid)) c.statusName
             (some (capString16 c))) ∧
         (rosterRows16 (chars "1") c2Chat).get? (k + 1) =
           some (.replyIro (chars "1") (1 + k + 1) (rosterTotal16 c2Chat) c.email
             c.statusName (some (capString16 c))))) := by
  have hlook : lookupTok c2Env.calTokens (chars "t") = some c2Payload := by
    simp [c2Env, lookupTok]
  have hexp : lookupTok c2Env.calExpiry (chars "t") = some 100 := by
    simp [c2Env, lookupTok]
  have hstale : ¬ ((60 : ℤ) ≤ pyRound ((100 : ℚ) - (lookupTok c2Env.calExpiry (chars "t")).getD 0)) := by
    rw [hexp]
    norm_num [pyRound]
  refine ⟨⟨hlook, hstale, by decide, by decide, by decide⟩, ?_⟩
  exact ans_roster16 initialCtrl c2Env 100 (chars "1") (chars "c@y.com")
    (chars "t") 5 c2Payload c2Chat c2C hlook hstale (by decide) rfl rfl rfl
    (by decide) (by decide) (by decide) (by decide)

end MSN
